import Mathlib

set_option maxRecDepth 100000

/-!
Verification development for the FLARM NMEA sentence generator
(`gen_flarm.go`) of the stratux-flarm repository.

The Go source is shallowly embedded as follows.

* Floating point quantities (`float32`/`float64`) are modelled as exact
  fractions: a `Frac` is an integer numerator with a (positive) natural
  denominator, and all arithmetic is exact rational arithmetic carried out
  on numerators and denominators.  Float rounding error, `Inf` and `NaN`
  are not modelled.
* Go's conversion `int16(f)` of a float to a signed 16-bit integer
  truncates toward zero and then (per the mainstream gc implementation,
  for values representable in `int64`) keeps the low 16 bits interpreted
  as a signed value: this is `int16ofF = int16wrap ∘ Frac.truncI`.
* `fmt.Sprintf` numeric verbs are modelled by `natDec` / `intDec`
  (`%d`, `strconv.Itoa`), `hexUC` (`%X`), `hexPad2` (`%02X`) and
  `fmtF w p` (`%0w.pf`; rounding is modelled as round-half-up, which
  agrees with Go except on exact representable ties).
* The globals read by the code (`mySituation`, `globalSettings`) and the
  external predicates `isGPSValid()` / `isTempPressValid()` are passed in
  as an explicit snapshot (`OwnEnv`); `distRect` (defined elsewhere in
  stratux) is passed in as its result vector `GeoVec`.
* `sendNetFLARM` does not perform I/O here; it returns a record of the
  writes the Go function performs (UDP send and TCP broadcast channel
  push).  In `makeFlarmPFLAAString` the `pflau` field of the result is
  `some s` exactly when the Go code reaches its unconditional
  `sendNetFLARM(msgPFLAU)` call with `msgPFLAU = s`, and `none` when the
  function returns before that call.
* The checksum loop `for i := range msg { checksum ^= byte(msg[i]) }`
  ranges over the rune-start byte indices of the string, so it XORs only
  the FIRST UTF-8 byte of each character and skips continuation bytes of
  multi-byte characters: `checksumBytes` folds `utf8FirstByte` over the
  characters.  `strBytes` / `specChecksumAllBytes` give the XOR over ALL
  UTF-8 bytes, the property the specification ascribes to the checksum;
  the two coincide exactly on ASCII-only strings.  (The `% 64` style
  masks in the byte encoders are identities on each branch's range and
  only make the `< 256` bound syntactically evident.)
* For the feet-to-meters comparison the conversion sites are additionally
  modelled with faithful IEEE-754 binary32 arithmetic: `fl32` is the
  correctly rounded (nearest, ties to even) float32 value of a fraction,
  and `ftToMetersF32` / `ggaFeetToMetersF32` are the float32 evaluations
  of `x * 0.3048` and `x / 3.28084` as the program performs them.
-/

/-! ## Byte-level string model and formatting primitives -/

def utf8Bytes (c : Char) : List Nat :=
  if c.toNat < 128 then [c.toNat]
  else if c.toNat < 2048 then [192 + (c.toNat / 64) % 32, 128 + c.toNat % 64]
  else if c.toNat < 65536 then
    [224 + (c.toNat / 4096) % 16, 128 + (c.toNat / 64) % 64, 128 + c.toNat % 64]
  else
    [240 + (c.toNat / 262144) % 8, 128 + (c.toNat / 4096) % 64, 128 + (c.toNat / 64) % 64, 128 + c.toNat % 64]

def strBytes (s : String) : List Nat :=
  s.data.flatMap utf8Bytes

/-- The byte the Go loop `for i := range msg { checksum ^= byte(msg[i]) }`
reads for each character: `range` over a string yields only the rune-start
byte indices, so `msg[i]` is the first UTF-8 byte of the character and
continuation bytes of multi-byte characters are never visited. -/
def utf8FirstByte (c : Char) : Nat :=
  if c.toNat < 128 then c.toNat
  else if c.toNat < 2048 then 192 + (c.toNat / 64) % 32
  else if c.toNat < 65536 then 224 + (c.toNat / 4096) % 16
  else 240 + (c.toNat / 262144) % 8

/-- The checksum the program computes: XOR of the rune-start byte of every
character, exactly as the Go `for i := range msg` loop visits them. -/
def checksumBytes (s : String) : Nat :=
  (s.data.map utf8FirstByte).foldl (fun a b => a ^^^ b) 0

/-- Modelled from the spec's words, for comparison with the program's
checksum: the byte-wise XOR across ALL UTF-8 bytes of the sentence body
("byte-wise XOR across the sentence body").  On ASCII-only strings it
coincides with `checksumBytes`; on strings with multi-byte characters it
does not. -/
def specChecksumAllBytes (s : String) : Nat :=
  (strBytes s).foldl (fun a b => a ^^^ b) 0

def digitChar (n : Nat) : Char :=
  match n with
  | 0 => '0' | 1 => '1' | 2 => '2' | 3 => '3' | 4 => '4'
  | 5 => '5' | 6 => '6' | 7 => '7' | 8 => '8' | _ => '9'

def hexDigitChar (n : Nat) : Char :=
  match n with
  | 0 => '0' | 1 => '1' | 2 => '2' | 3 => '3' | 4 => '4'
  | 5 => '5' | 6 => '6' | 7 => '7' | 8 => '8' | 9 => '9'
  | 10 => 'A' | 11 => 'B' | 12 => 'C' | 13 => 'D' | 14 => 'E' | _ => 'F'

def decAux (fuel : Nat) (n : Nat) : List Char :=
  match fuel with
  | 0 => []
  | fuel + 1 => if n < 10 then [digitChar n] else decAux fuel (n / 10) ++ [digitChar (n % 10)]

/-- Decimal rendering of a natural number (`%d`, `strconv.Itoa`). -/
def natDec (n : Nat) : String :=
  ⟨decAux (n + 1) n⟩

/-- Decimal rendering of an integer (`%d`, `strconv.Itoa`). -/
def intDec (i : Int) : String :=
  if i < 0 then "-" ++ natDec i.natAbs else natDec i.natAbs

def hexAux (fuel : Nat) (n : Nat) : List Char :=
  match fuel with
  | 0 => []
  | fuel + 1 => if n < 16 then [hexDigitChar n] else hexAux fuel (n / 16) ++ [hexDigitChar (n % 16)]

/-- Uppercase hexadecimal rendering without padding (Go `%X`). -/
def hexUC (n : Nat) : String :=
  ⟨hexAux (n + 1) n⟩

/-- Uppercase hexadecimal rendering zero-padded to (at least) two digits
(Go `%02X`). -/
def hexPad2 (n : Nat) : String :=
  if n < 16 then "0" ++ hexUC n else hexUC n

/-- Left-pad with zeros to width `w` (the `0` flag of `fmt` verbs). -/
def zPad (w : Nat) (s : String) : String :=
  ⟨List.replicate (w - s.data.length) '0' ++ s.data⟩

def pad2 (n : Nat) : String :=
  zPad 2 (natDec n)

/-! ## Exact fractions standing in for Go floats -/

structure Frac where
  n : Int
  d : Nat
deriving DecidableEq

def Frac.ofInt (i : Int) : Frac := ⟨i, 1⟩

def Frac.mul (x y : Frac) : Frac := ⟨x.n * y.n, x.d * y.d⟩

def Frac.add (x y : Frac) : Frac := ⟨x.n * y.d + y.n * x.d, x.d * y.d⟩

def Frac.sub (x y : Frac) : Frac := ⟨x.n * y.d - y.n * x.d, x.d * y.d⟩

def Frac.divNat (x : Frac) (k : Nat) : Frac := ⟨x.n, x.d * k⟩

/-- Strict order on fractions (valid for positive denominators). -/
def Frac.blt (x y : Frac) : Bool := decide (x.n * (y.d : Int) < y.n * (x.d : Int))

/-- Value equality of fractions (valid for positive denominators). -/
def Frac.eqv (x y : Frac) : Prop := x.n * (y.d : Int) = y.n * (x.d : Int)

instance (x y : Frac) : Decidable (x.eqv y) := by
  unfold Frac.eqv; infer_instance

/-- Floor of a fraction (for a positive denominator). -/
def Frac.floorI (x : Frac) : Int := Int.fdiv x.n x.d

/-- Truncation toward zero, as in Go's float-to-integer conversion. -/
def Frac.truncI (x : Frac) : Int := Int.tdiv x.n x.d

/-- Rounding to the nearest integer (ties up), modelling `%f` rounding. -/
def Frac.roundI (x : Frac) : Int := (x.add ⟨1, 2⟩).floorI

/-- Reduction of an integer into the signed 16-bit range by taking the low
16 bits, which is what Go's gc compiler does on an out-of-range
float-to-`int16` conversion (wrap, not saturation). -/
def int16wrap (i : Int) : Int := (i + 32768) % 65536 - 32768

/-- Go's `int16(f)` for a float `f` modelled as a fraction. -/
def int16ofF (x : Frac) : Int := int16wrap x.truncI

/-- Division of fractions, valid for a positive divisor. -/
def Frac.divF (x y : Frac) : Frac := ⟨x.n * (y.d : Int), x.d * y.n.natAbs⟩

/-- `n/d < 2^t` for `n, d > 0` and an integer exponent `t`. -/
def pow2LtF (n : Int) (d : Nat) (t : Int) : Bool :=
  if 0 ≤ t then decide (n < (d : Int) * 2 ^ t.toNat)
  else decide (n * 2 ^ (-t).toNat < (d : Int))

/-- The smallest `t` (searched upward with bounded fuel) with `n/d < 2^t`. -/
def findTAux (n : Int) (d : Nat) : Int → Nat → Int
  | t, 0 => t
  | t, fuel + 1 => if pow2LtF n d t then t else findTAux n d (t + 1) fuel

/-- Round `num/den` (with `den > 0`) to the nearest integer, ties to even. -/
def rhe (num den : Int) : Int :=
  let q := Int.fdiv num den
  let r := num - q * den
  if 2 * r < den then q
  else if den < 2 * r then q + 1
  else if q % 2 = 0 then q else q + 1

/-- The correctly rounded IEEE-754 binary32 value (round to nearest, ties
to even, 24-bit significand) of a fraction, returned as an exact fraction.
Valid for the normal range, which covers every value arising at the
modelled conversion sites; subnormal underflow and overflow are outside
the modelled range. -/
def fl32 (x : Frac) : Frac :=
  if x.n = 0 then ⟨0, 1⟩
  else
    let a : Int := (x.n.natAbs : Int)
    let t := findTAux a x.d (-200) 400
    let e := t - 24
    let m := if 0 ≤ e then rhe a ((x.d : Int) * 2 ^ e.toNat)
             else rhe (a * 2 ^ (-e).toNat) (x.d : Int)
    let mag : Frac := if 0 ≤ e then ⟨m * 2 ^ e.toNat, 1⟩ else ⟨m, 2 ^ (-e).toNat⟩
    if x.n < 0 then ⟨-mag.n, mag.d⟩ else mag

/-- The PFLAA-side feet-to-meters conversion in faithful float32
arithmetic: `float32` input times the `float32` constant `0.3048`
(gen_flarm.go line 194 and the climb-rate site, line 241). -/
def ftToMetersF32 (x : Frac) : Frac := fl32 (x.mul (fl32 ⟨3048, 10000⟩))

/-- The GPGGA-side feet-to-meters conversion in faithful float32
arithmetic: `float32` input divided by the `float32` constant `3.28084`
(gen_flarm.go lines 484-485). -/
def ggaFeetToMetersF32 (x : Frac) : Frac := fl32 (x.divF (fl32 ⟨328084, 100000⟩))

/-- Fixed-point rendering `%0w.pf` (zero-pad to width `w`, `p` digits after
the point; for `p = 0` Go prints no point, as in `%02.f`).  The generators
only ever zero-pad non-negative values, so the sign is not re-ordered with
the padding. -/
def fmtF (w p : Nat) (x : Frac) : String :=
  let scaled : Int := (x.mul ⟨(10 : Int) ^ p, 1⟩).roundI
  let a : Nat := scaled.natAbs
  let digits : String :=
    if p = 0 then natDec a else natDec (a / 10 ^ p) ++ "." ++ zPad p (natDec (a % 10 ^ p))
  zPad w (if scaled < 0 then "-" ++ digits else digits)

/-! ## NMEA framing -/

/-- `fmt.Sprintf("$%s*%02X\r\n", msg, checksum)` (PFLAA / PFLAU). -/
def frameNMEA2 (body : String) : String :=
  "$" ++ body ++ "*" ++ hexPad2 (checksumBytes body) ++ "\r\n"

/-- `fmt.Sprintf("$%s*%X\r\n", msg, checksum)` (GPRMC / GPGGA). -/
def frameNMEA1 (body : String) : String :=
  "$" ++ body ++ "*" ++ hexUC (checksumBytes body) ++ "\r\n"

/-- Comma-joining of the `Sprintf` fields of a sentence body. -/
def joinComma : List String → String
  | [] => ""
  | [s] => s
  | s :: rest => s ++ "," ++ joinComma rest

def isUpperHexChar (c : Char) : Bool :=
  decide (('0' ≤ c ∧ c ≤ '9') ∨ ('A' ≤ c ∧ c ≤ 'F'))

def isUpperHexStr (s : String) : Bool :=
  s.data.all isUpperHexChar

/-- Extraction helpers used to inspect concrete generated sentences:
the characters of the body (after the leading `$`, before `*`). -/
def takeUntilStar : List Char → List Char
  | [] => []
  | c :: cs => if c = '*' then [] else c :: takeUntilStar cs

def splitCommaAux : List Char → List Char → List String
  | [], acc => [⟨acc.reverse⟩]
  | c :: cs, acc => if c = ',' then (⟨acc.reverse⟩ : String) :: splitCommaAux cs [] else splitCommaAux cs (c :: acc)

/-- Field `i` (0-based, comma-separated) of the body of a framed sentence. -/
def sentenceField (s : String) (i : Nat) : String :=
  (splitCommaAux (takeUntilStar (s.data.drop 1)) []).getD i ""

/-- The body of a framed sentence: the characters between the leading `$`
and the first `*`. -/
def sentenceBody (s : String) : String :=
  ⟨takeUntilStar (s.data.drop 1)⟩

def afterFirstStar : List Char → List Char
  | [] => []
  | c :: cs => if c = '*' then cs else afterFirstStar cs

/-- The trailing checksum field of a framed sentence: the characters after
the `*`, with the final CR LF removed. -/
def checksumFieldOf (s : String) : String :=
  ⟨(afterFirstStar s.data).dropLast.dropLast⟩

/-! ## Data model: settings, ownship snapshot, traffic record -/

structure GlobalSettings where
  NetworkFLARM : Bool := false
  DEBUG : Bool := false

structure SituationInfo where
  GPSLastFixSinceMidnightUTC : Nat := 0
  GPSLatitude : Frac := ⟨0, 1⟩
  GPSLongitude : Frac := ⟨0, 1⟩
  GPSFixQuality : Nat := 0
  GPSGeoidSep : Frac := ⟨0, 1⟩
  GPSSatellites : Nat := 0
  GPSAltitudeMSL : Frac := ⟨0, 1⟩
  BaroPressureAltitude : Frac := ⟨0, 1⟩
  GPSTrueCourse : Nat := 0
  GPSGroundSpeed : Nat := 0

structure TrafficInfo where
  Icao_addr : Nat := 0
  Tail : String := ""
  Lat : Frac := ⟨0, 1⟩
  Lng : Frac := ⟨0, 1⟩
  Alt : Int := 0
  Track : Nat := 0
  Speed : Nat := 0
  Vvel : Int := 0
  SignalLevel : Frac := ⟨0, 1⟩
  Emitter_category : Nat := 0
  Position_valid : Bool := false
  Speed_valid : Bool := false
  Bearing : Frac := ⟨0, 1⟩

/-- One consistent snapshot of the globals and external predicates the
generator reads: `mySituation`, `isGPSValid()`, `isTempPressValid()`. -/
structure OwnEnv where
  sit : SituationInfo := {}
  gpsValid : Bool := false
  tempPressValid : Bool := false

/-- The result vector of the external `distRect` call: distance, bearing
and the north/east offsets in meters. -/
structure GeoVec where
  dist : Frac := ⟨0, 1⟩
  bearing : Frac := ⟨0, 1⟩
  distN : Frac := ⟨0, 1⟩
  distE : Frac := ⟨0, 1⟩

/-- `isGPSValid() && mySituation.GPSFixQuality > 0`, as tested repeatedly
by the source. -/
def fixOK (env : OwnEnv) : Bool :=
  env.gpsValid && decide (0 < env.sit.GPSFixQuality)

/-- Verbatim from the source. -/
def InBetween (i mn mx : Int) : Bool :=
  if decide (mn ≤ i) && decide (i ≤ mx) then true else false

/-! ## Geometry / alarm engine (`makeFlarmPFLAAString`) -/

def ftM : Frac := ⟨3048, 10000⟩

/-- The `* 0.3048` feet-to-meters conversion used for the relative
vertical offset and the climb rate. -/
def ftToMeters (x : Frac) : Frac := x.mul ftM

/-- The `/ 3.28084` feet-to-meters conversion used for the GPGGA altitude
and geoid separation (`x / 3.28084 = x * 100000 / 328084`). -/
def ggaFeetToMeters (x : Frac) : Frac := ⟨x.n * 100000, x.d * 328084⟩

def matchAt : List Char → List Char → Bool
  | _, [] => true
  | [], _ :: _ => false
  | c :: cs, p :: ps => (c == p) && matchAt cs ps

def containsSub : List Char → List Char → Bool
  | [], pat => pat.isEmpty
  | c :: cs, pat => matchAt (c :: cs) pat || containsSub cs pat

/-- `strings.Contains`. -/
def goContains (s sub : String) : Bool :=
  containsSub s.data sub.data

/-- The ownship reference altitude `altf`: barometric pressure altitude,
replaced by GPS altitude MSL when pressure sensing is unavailable or the
target's tail marks it as a FLARM peer (`strings.Contains(ti.Tail, "F-")`). -/
def altRef (env : OwnEnv) (ti : TrafficInfo) : Frac :=
  if !env.tempPressValid then env.sit.GPSAltitudeMSL
  else if goContains ti.Tail "F-" then env.sit.GPSAltitudeMSL
  else env.sit.BaroPressureAltitude

/-- `relativeVertical = int16(float32(ti.Alt)*0.3048 - altf*0.3048)`. -/
def relVert (env : OwnEnv) (ti : TrafficInfo) : Int :=
  int16ofF ((ftToMeters (Frac.ofInt ti.Alt)).sub (ftToMeters (altRef env ti)))

/-- The signal-strength-to-nominal-range step function of the degraded
(Mode-C-like) regime; `relativeNorth` starts at its zero value. -/
def signalRange (s : Frac) : Int :=
  if Frac.blt ⟨-5, 1⟩ s then 463
  else if Frac.blt ⟨-10, 1⟩ s then 3704
  else if Frac.blt ⟨-15, 1⟩ s then 7408
  else if Frac.blt ⟨-18, 1⟩ s then 11112
  else if Frac.blt ⟨-20, 1⟩ s then 14816
  else if Frac.blt ⟨-25, 1⟩ s then 29632
  else 0

/-- The nested distance / vertical-band alarm classification. -/
def alarmOf (dist : Frac) (relativeVertical : Int) : Nat × Nat :=
  if Frac.blt dist ⟨926, 1⟩ && InBetween relativeVertical (-304) 304 then (3, 2)
  else if Frac.blt dist ⟨4000, 1⟩ && InBetween relativeVertical (-304) 304 then (3, 2)
  else if Frac.blt dist ⟨8000, 1⟩ && InBetween relativeVertical (-304) 304 then (2, 2)
  else if Frac.blt dist ⟨12000, 1⟩ && InBetween relativeVertical (-304) 304 then (1, 2)
  else (0, 0)

/-- `climbRate`, clamped to ±32.7 m/s. -/
def clampClimb (x : Frac) : Frac :=
  if Frac.blt ⟨327, 10⟩ x then ⟨327, 10⟩
  else if Frac.blt x ⟨-327, 10⟩ then ⟨-327, 10⟩
  else x

/-- ADS-B emitter category to FLARM aircraft type. -/
def acTypeOf (c : Nat) : Nat :=
  match c with
  | 9 => 1
  | 7 => 3
  | 1 => 8
  | 2 => 9 | 3 => 9 | 4 => 9 | 5 => 9 | 6 => 9
  | _ => 0

/-- Everything the straight-line tail of `makeFlarmPFLAAString` computes
once a regime has been selected. -/
structure PFLAAData where
  alarmLevel : Nat
  alarmType : Nat
  relativeNorth : Int
  rEast : String
  relativeVertical : Int
  track : String
  gSpeed : String
  cRate : String
  acType : Nat
  dist : Frac
  modec_valid : Bool
deriving DecidableEq

/-- The shared continuation of `makeFlarmPFLAAString` after regime
selection: vertical offset, Mode-C band rejection, alarm classification,
speed / climb formatting, aircraft type. -/
def pflaaCont (env : OwnEnv) (ti : TrafficInfo) (relativeNorth : Int)
    (rEast track : String) (dist : Frac) (modec_valid : Bool) : Option PFLAAData :=
  if modec_valid && !InBetween (relVert env ti) (-310) 310 then none
  else
    some { alarmLevel := (alarmOf dist (relVert env ti)).1,
           alarmType := (alarmOf dist (relVert env ti)).2,
           relativeNorth := relativeNorth, rEast := rEast,
           relativeVertical := relVert env ti, track := track,
           gSpeed := if ti.Speed_valid then intDec (int16ofF (Frac.mul ⟨(ti.Speed : Int), 1⟩ ⟨5144, 10000⟩)) else "",
           cRate := if ti.Speed_valid then fmtF 0 1 (clampClimb ((ftToMeters (Frac.ofInt ti.Vvel)).divNat 60)) else "",
           acType := acTypeOf ti.Emitter_category,
           dist := dist, modec_valid := modec_valid }

/-- Regime selection of `makeFlarmPFLAAString`: `none` is a `valid=false`
early return (no sentence, no `sendNetFLARM` call). -/
def pflaaCompute (env : OwnEnv) (geo : GeoVec) (ti : TrafficInfo) : Option PFLAAData :=
  if !decide (0 < ti.Alt) then none
  else if decide (0 < ti.Alt) && ti.Position_valid && ti.Speed_valid && fixOK env then
    pflaaCont env ti (int16ofF geo.distN) (intDec (int16ofF geo.distE)) (natDec ti.Track) geo.dist false
  else if decide (0 < ti.Alt) && !ti.Position_valid && !ti.Speed_valid && !decide (0 < ti.Track) && fixOK env then
    if signalRange ti.SignalLevel == 0 then none
    else pflaaCont env ti (signalRange ti.SignalLevel) "" "" (Frac.ofInt (signalRange ti.SignalLevel)) true
  else none

/-- The PFLAA body fields, in the order of the `Sprintf` format string
`"PFLAA,%d,%d,%s,%d,%d,%X!%s,%s,,%s,%s,%d"` (`idType` is fixed at 1). -/
def pflaaFields (ti : TrafficInfo) (d : PFLAAData) : List String :=
  ["PFLAA", natDec d.alarmLevel, intDec d.relativeNorth, d.rEast,
   intDec d.relativeVertical, natDec 1, hexUC ti.Icao_addr ++ "!" ++ ti.Tail,
   d.track, "", d.gSpeed, d.cRate, natDec d.acType]

/-- The PFLAU relative bearing: `relativeBearing` is declared with value 0
and only reassigned when the bearing lies outside ±180. -/
def pflauRelativeBearing (b : Frac) : Frac :=
  if Frac.blt ⟨180, 1⟩ b then b.sub ⟨360, 1⟩
  else if Frac.blt b ⟨-180, 1⟩ then b.add ⟨360, 1⟩
  else ⟨0, 1⟩

/-- The populated PFLAU body fields, in the order of the `Sprintf` format
string `"PFLAU,1,1,2,1,%d,%d,%d,%d,%d,%X"`. -/
def pflauFields (alarmLevel : Nat) (bearing : Frac) (alarmType : Nat)
    (relVertical : Int) (dist : Frac) (icao : Nat) : List String :=
  ["PFLAU", "1", "1", "2", "1", natDec alarmLevel,
   intDec (int16ofF (pflauRelativeBearing bearing)), natDec alarmType,
   intDec relVertical, intDec (int16ofF dist), hexUC icao]

/-- The zero/blank-filled PFLAU body. -/
def pflauBlankBody : String := "PFLAU,1,1,2,1,0,,0,,,"

/-- The writes performed by `sendNetFLARM`: a UDP `sendMsg` when
`globalSettings.NetworkFLARM` is set, and a push onto the TCP broadcast
channel `msgchan` unconditionally. -/
structure SendEffects where
  udp : Option String
  tcpChan : Option String

def sendNetFLARM (settings : GlobalSettings) (msg : String) : SendEffects :=
  { udp := if settings.NetworkFLARM then some msg else none,
    tcpChan := some msg }

structure PFLAAResult where
  msg : String
  valid : Bool
  pflau : Option String

/-- `makeFlarmPFLAAString`: the returned `(msg, valid)` pair, plus the
argument of the `sendNetFLARM(msgPFLAU)` call (`none` when the function
returns before reaching that call). -/
def makeFlarmPFLAAString (env : OwnEnv) (geo : GeoVec) (ti : TrafficInfo) : PFLAAResult :=
  match pflaaCompute env geo ti with
  | none => { msg := "", valid := false, pflau := none }
  | some d =>
    { msg := frameNMEA2 (joinComma (pflaaFields ti d)),
      valid := true,
      pflau := some (
        if decide (0 < d.alarmLevel) && fixOK env && !d.modec_valid then
          frameNMEA2 (joinComma (pflauFields d.alarmLevel ti.Bearing d.alarmType d.relativeVertical d.dist ti.Icao_addr))
        else if fixOK env then frameNMEA2 pflauBlankBody
        else "") }

/-! ## GPRMC / GPGGA (`makeGPRMCString`, `makeGPGGAString`) -/

def rmcStatus (env : OwnEnv) : String :=
  if fixOK env then "A" else "V"

def nsOf (lat : Frac) : String :=
  if Frac.blt lat ⟨0, 1⟩ then "S" else "N"

def ewOf (lng : Frac) : String :=
  if Frac.blt lng ⟨0, 1⟩ then "W" else "E"

def fracAbs (x : Frac) : Frac :=
  if Frac.blt x ⟨0, 1⟩ then ⟨-x.n, x.d⟩ else x

/-- `deg*100 + (x - deg)*60` with `deg = math.Floor(x)`: degrees and
decimal minutes packed into one number. -/
def dmOut (x : Frac) : Frac :=
  ((Frac.ofInt x.floorI).mul ⟨100, 1⟩).add ((x.sub (Frac.ofInt x.floorI)).mul ⟨60, 1⟩)

def rmcMode (q : Nat) : String :=
  if q = 1 then "A" else if q = 2 then "D" else "N"

/-- `%02.f%02.f%05.2f` of hours / minutes / seconds derived from the
seconds-since-midnight counter. -/
def rmcTime (lastFix : Nat) : String :=
  pad2 (lastFix / 3600) ++ pad2 (lastFix % 3600 / 60) ++ fmtF 5 2 ⟨(lastFix % 3600 % 60 : Nat), 1⟩

/-- The valid-fix GPRMC body
(`"GPRMC,%02.f%02.f%05.2f,%s,%010.5f,%s,%011.5f,%s,%.1f,%.1f,%02d%02d%02d,%s,%s,%s"`,
with empty magnetic-variation fields). -/
def rmcBodyValid (env : OwnEnv) (dd mm yy : Nat) : String :=
  "GPRMC," ++ rmcTime env.sit.GPSLastFixSinceMidnightUTC ++ "," ++ rmcStatus env ++ ","
    ++ fmtF 10 5 (dmOut (fracAbs env.sit.GPSLatitude)) ++ "," ++ nsOf env.sit.GPSLatitude ++ ","
    ++ fmtF 11 5 (dmOut (fracAbs env.sit.GPSLongitude)) ++ "," ++ ewOf env.sit.GPSLongitude ++ ","
    ++ fmtF 0 1 ⟨(env.sit.GPSGroundSpeed : Int), 1⟩ ++ "," ++ fmtF 0 1 ⟨(env.sit.GPSTrueCourse : Int), 1⟩ ++ ","
    ++ pad2 dd ++ pad2 mm ++ pad2 (yy % 100) ++ ",,," ++ rmcMode env.sit.GPSFixQuality

/-- The no-fix GPRMC body (`"GPRMC,,%s,,,,,,,%02d%02d%02d,%s,%s,%s"`). -/
def rmcBodyNoFix (env : OwnEnv) (dd mm yy : Nat) : String :=
  "GPRMC,," ++ rmcStatus env ++ ",,,,,,," ++ pad2 dd ++ pad2 mm ++ pad2 (yy % 100) ++ ",,," ++ rmcMode env.sit.GPSFixQuality

/-- `makeGPRMCString`; the UTC date produced by `time.Now()` is passed in
as day / month / year. -/
def makeGPRMCString (env : OwnEnv) (dd mm yy : Nat) : String :=
  frameNMEA1 (if env.gpsValid then rmcBodyValid env dd mm yy else rmcBodyNoFix env dd mm yy)

def ggaNumSV (n : Nat) : Nat :=
  if n > 12 then 12 else n

/-- The valid-fix GPGGA body
(`"GPGGA,%02.f%02.f%05.2f,%010.5f,%s,%011.5f,%s,%d,%d,%.2f,%.1f,M,%.1f,M,,"`,
with `hdop` hard-coded to 1.0). -/
def ggaBodyValid (env : OwnEnv) : String :=
  "GPGGA," ++ rmcTime env.sit.GPSLastFixSinceMidnightUTC ++ ","
    ++ fmtF 10 5 (dmOut (fracAbs env.sit.GPSLatitude)) ++ "," ++ nsOf env.sit.GPSLatitude ++ ","
    ++ fmtF 11 5 (dmOut (fracAbs env.sit.GPSLongitude)) ++ "," ++ ewOf env.sit.GPSLongitude ++ ","
    ++ natDec env.sit.GPSFixQuality ++ "," ++ natDec (ggaNumSV env.sit.GPSSatellites) ++ ","
    ++ fmtF 0 2 ⟨1, 1⟩ ++ "," ++ fmtF 0 1 (ggaFeetToMeters env.sit.GPSAltitudeMSL) ++ ",M,"
    ++ fmtF 0 1 (ggaFeetToMeters env.sit.GPSGeoidSep) ++ ",M,,"

/-- The no-fix GPGGA fallback body. -/
def ggaBodyNoFix : String := "GPTXT,No valid Stratux GPS position"

/-- `makeGPGGAString`. -/
def makeGPGGAString (env : OwnEnv) : String :=
  frameNMEA1 (if env.gpsValid then ggaBodyValid env else ggaBodyNoFix)

/-! ## TCP fan-out registry (`handleMessages`) -/

structure TcpClient where
  conn : Nat
  ch : Nat
deriving DecidableEq

inductive NetEvent where
  | msg (s : String)
  | add (c : TcpClient)
  | rm (c : TcpClient)

/-- The registry map `clients : map[net.Conn]chan<- string`, as an
association list keyed by connection identity. -/
def Registry := List (Nat × Nat)

def registryInsert (r : List (Nat × Nat)) (k v : Nat) : List (Nat × Nat) :=
  if r.any (fun p => p.1 = k) then r.map (fun p => if p.1 = k then (k, v) else p) else r ++ [(k, v)]

def registryDelete (r : List (Nat × Nat)) (k : Nat) : List (Nat × Nat) :=
  r.filter (fun p => p.1 ≠ k)

/-- One iteration of the `handleMessages` select loop: the new registry
state, and the list of (channel, message) deliveries dispatched
(`go func(mch) { mch <- msg }(ch)` for each registered client). -/
def handleMessagesStep (clients : List (Nat × Nat)) : NetEvent → List (Nat × Nat) × List (Nat × String)
  | .msg s => (clients, clients.map (fun p => (p.2, s)))
  | .add c => (registryInsert clients c.conn c.ch, [])
  | .rm c => (registryDelete clients c.conn, [])

/-! ## Helper lemmas: checksum algebra and digit bounds -/

theorem strBytes_append (a b : String) : strBytes (a ++ b) = strBytes a ++ strBytes b := by
  cases a with
  | mk la =>
    cases b with
    | mk lb =>
      show ((⟨la⟩ : String) ++ ⟨lb⟩).data.flatMap utf8Bytes = _
      have : ((⟨la⟩ : String) ++ ⟨lb⟩) = (⟨la ++ lb⟩ : String) := rfl
      rw [this]
      simp [strBytes, List.flatMap_append]

theorem foldlXor_shift (l : List Nat) : ∀ x : Nat,
    l.foldl (fun a b => a ^^^ b) x = x ^^^ l.foldl (fun a b => a ^^^ b) 0 := by
  induction l with
  | nil => intro x; simp
  | cons c cs ih =>
    intro x
    simp only [List.foldl_cons]
    rw [ih (x ^^^ c), ih (0 ^^^ c)]
    simp [Nat.xor_assoc]

theorem checksum_append (a b : String) :
    checksumBytes (a ++ b) = checksumBytes a ^^^ checksumBytes b := by
  unfold checksumBytes
  rw [String.data_append, List.map_append, List.foldl_append, foldlXor_shift]

theorem foldlXor_lt {k : Nat} (l : List Nat) (hl : ∀ b ∈ l, b < 2 ^ k) :
    ∀ x : Nat, x < 2 ^ k → l.foldl (fun a b => a ^^^ b) x < 2 ^ k := by
  induction l with
  | nil => intro x hx; simpa using hx
  | cons c cs ih =>
    intro x hx
    simp only [List.foldl_cons]
    exact ih (fun b hb => hl b (List.mem_cons_of_mem _ hb))
      _ (Nat.xor_lt_two_pow hx (hl c (List.mem_cons_self _ _)))

theorem utf8Bytes_lt (c : Char) : ∀ b ∈ utf8Bytes c, b < 256 := by
  intro b hb
  unfold utf8Bytes at hb
  split at hb
  · simp at hb; omega
  · split at hb
    · simp at hb
      have h1 : c.toNat / 64 % 32 < 32 := Nat.mod_lt _ (by omega)
      have h2 : c.toNat % 64 < 64 := Nat.mod_lt _ (by omega)
      omega
    · split at hb
      · simp at hb
        have h1 : c.toNat / 4096 % 16 < 16 := Nat.mod_lt _ (by omega)
        have h2 : c.toNat / 64 % 64 < 64 := Nat.mod_lt _ (by omega)
        have h3 : c.toNat % 64 < 64 := Nat.mod_lt _ (by omega)
        omega
      · simp at hb
        have h1 : c.toNat / 262144 % 8 < 8 := Nat.mod_lt _ (by omega)
        have h2 : c.toNat / 4096 % 64 < 64 := Nat.mod_lt _ (by omega)
        have h3 : c.toNat / 64 % 64 < 64 := Nat.mod_lt _ (by omega)
        have h4 : c.toNat % 64 < 64 := Nat.mod_lt _ (by omega)
        omega

theorem utf8FirstByte_lt (c : Char) : utf8FirstByte c < 256 := by
  unfold utf8FirstByte
  split
  · omega
  · split
    · have h1 : c.toNat / 64 % 32 < 32 := Nat.mod_lt _ (by omega)
      omega
    · split
      · have h1 : c.toNat / 4096 % 16 < 16 := Nat.mod_lt _ (by omega)
        omega
      · have h1 : c.toNat / 262144 % 8 < 8 := Nat.mod_lt _ (by omega)
        omega

theorem checksum_lt_256 (s : String) : checksumBytes s < 256 := by
  have : ∀ b ∈ s.data.map utf8FirstByte, b < 2 ^ 8 := by
    intro b hb
    rcases List.mem_map.mp hb with ⟨c, _, rfl⟩
    simpa using utf8FirstByte_lt c
  exact foldlXor_lt _ this 0 (by norm_num)

theorem spec_checksum_lt_256 (s : String) : specChecksumAllBytes s < 256 := by
  have : ∀ b ∈ strBytes s, b < 2 ^ 8 := by
    intro b hb
    unfold strBytes at hb
    rcases List.mem_flatMap.mp hb with ⟨c, _, hbc⟩
    exact utf8Bytes_lt c b hbc
  exact foldlXor_lt _ this 0 (by norm_num)

/-- Strings whose characters all lie below code point 64: digits, signs,
dots, commas.  The XOR checksum of such a string is below 64. -/
def numStr (s : String) : Prop := ∀ c ∈ s.data, c.toNat < 64

theorem utf8Bytes_small (c : Char) (h : c.toNat < 128) : utf8Bytes c = [c.toNat] := by
  unfold utf8Bytes
  rw [if_pos h]

theorem utf8FirstByte_small (c : Char) (h : c.toNat < 128) : utf8FirstByte c = c.toNat := by
  unfold utf8FirstByte
  rw [if_pos h]

theorem checksum_lt_64 (s : String) (h : numStr s) : checksumBytes s < 64 := by
  have : ∀ b ∈ s.data.map utf8FirstByte, b < 2 ^ 6 := by
    intro b hb
    rcases List.mem_map.mp hb with ⟨c, hc, rfl⟩
    have hc64 := h c hc
    rw [utf8FirstByte_small c (by omega)]
    simpa using hc64
  exact foldlXor_lt _ this 0 (by norm_num)

/-- ASCII-only strings: every character is a single UTF-8 byte, so the
program's rune-start checksum and the byte-wise checksum agree. -/
def asciiStr (s : String) : Prop := ∀ c ∈ s.data, c.toNat < 128

instance (s : String) : Decidable (asciiStr s) := by
  unfold asciiStr
  infer_instance

theorem ascii_flatMap_eq (l : List Char) (h : ∀ c ∈ l, c.toNat < 128) :
    l.flatMap utf8Bytes = l.map utf8FirstByte := by
  induction l with
  | nil => rfl
  | cons c cs ih =>
    have hc := h c (List.mem_cons_self _ _)
    simp only [List.flatMap_cons, List.map_cons]
    rw [utf8Bytes_small c hc, utf8FirstByte_small c hc,
      ih (fun x hx => h x (List.mem_cons_of_mem _ hx))]
    rfl

theorem ascii_checksum_eq (s : String) (h : asciiStr s) :
    checksumBytes s = specChecksumAllBytes s := by
  unfold checksumBytes specChecksumAllBytes strBytes
  rw [ascii_flatMap_eq s.data h]

theorem cs_testBit6_false (s : String) (h : numStr s) :
    (checksumBytes s).testBit 6 = false :=
  Nat.testBit_lt_two_pow (by simpa using checksum_lt_64 s h)

theorem ge64_of_testBit6 {n : Nat} (h : n.testBit 6 = true) : 64 ≤ n := by
  by_contra hlt
  rw [Nat.testBit_lt_two_pow (by omega : n < 2 ^ 6)] at h
  exact Bool.false_ne_true h

theorem numStr_append (a b : String) (ha : numStr a) (hb : numStr b) : numStr (a ++ b) := by
  intro c hc
  have : (a ++ b).data = a.data ++ b.data := String.data_append a b
  rw [this] at hc
  rcases List.mem_append.mp hc with h | h
  · exact ha c h
  · exact hb c h

theorem digitChar_lt (n : Nat) : (digitChar n).toNat < 64 := by
  unfold digitChar
  split <;> decide

theorem decAux_chars (fuel : Nat) : ∀ n c, c ∈ decAux fuel n → c.toNat < 64 := by
  induction fuel with
  | zero => intro n c hc; simp [decAux] at hc
  | succ fuel ih =>
    intro n c hc
    unfold decAux at hc
    split at hc
    · simp at hc; subst hc; exact digitChar_lt n
    · rcases List.mem_append.mp hc with h | h
      · exact ih _ c h
      · simp at h; subst h; exact digitChar_lt _

theorem numStr_natDec (n : Nat) : numStr (natDec n) := by
  intro c hc
  exact decAux_chars (n + 1) n c hc

theorem numStr_intDec (i : Int) : numStr (intDec i) := by
  unfold intDec
  split
  · intro c hc
    have : ("-" ++ natDec i.natAbs).data = '-' :: (natDec i.natAbs).data := rfl
    rw [this] at hc
    rcases List.mem_cons.mp hc with h | h
    · subst h; decide
    · exact numStr_natDec _ c h
  · exact numStr_natDec _

theorem numStr_zPad (w : Nat) (s : String) (h : numStr s) : numStr (zPad w s) := by
  intro c hc
  unfold zPad at hc
  simp only at hc
  rcases List.mem_append.mp hc with hrep | hs
  · rw [List.eq_of_mem_replicate hrep]; decide
  · exact h c hs

theorem numStr_pad2 (n : Nat) : numStr (pad2 n) :=
  numStr_zPad 2 _ (numStr_natDec n)

theorem numStr_fmtF (w p : Nat) (x : Frac) : numStr (fmtF w p x) := by
  unfold fmtF
  apply numStr_zPad
  have hdig : numStr (if p = 0 then natDec ((x.mul ⟨(10 : Int) ^ p, 1⟩).roundI).natAbs
      else natDec (((x.mul ⟨(10 : Int) ^ p, 1⟩).roundI).natAbs / 10 ^ p) ++ "." ++
        zPad p (natDec (((x.mul ⟨(10 : Int) ^ p, 1⟩).roundI).natAbs % 10 ^ p))) := by
    split
    · exact numStr_natDec _
    · refine numStr_append _ _ (numStr_append _ _ (numStr_natDec _) ?_) (numStr_zPad _ _ (numStr_natDec _))
      intro c hc
      simp [String.data] at hc
      subst hc; decide
  split
  · refine numStr_append _ _ ?_ hdig
    intro c hc
    simp [String.data] at hc
    subst hc; decide
  · exact hdig

theorem numStr_rmcTime (lf : Nat) : numStr (rmcTime lf) := by
  unfold rmcTime
  exact numStr_append _ _ (numStr_append _ _ (numStr_pad2 _) (numStr_pad2 _)) (numStr_fmtF _ _ _)

/-! ## The checksum of GPRMC / GPGGA bodies is at least 0x10

Every character of those bodies is either a digit/punctuation character
(code point below 64) or one of a fixed odd-sized set of uppercase
letters, so bit 6 of the XOR is always set: the checksum is at least 64
and `%X` renders two digits despite the missing zero-padding. -/

theorem status_testBit6 (env : OwnEnv) : (checksumBytes (rmcStatus env)).testBit 6 = true := by
  unfold rmcStatus
  split <;> decide

theorem nsOf_testBit6 (x : Frac) : (checksumBytes (nsOf x)).testBit 6 = true := by
  unfold nsOf
  split <;> decide

theorem ewOf_testBit6 (x : Frac) : (checksumBytes (ewOf x)).testBit 6 = true := by
  unfold ewOf
  split <;> decide

theorem mode_testBit6 (q : Nat) : (checksumBytes (rmcMode q)).testBit 6 = true := by
  unfold rmcMode
  split
  · decide
  · split <;> decide

theorem rmcBodyValid_cs_ge16 (env : OwnEnv) (dd mm yy : Nat) :
    16 ≤ checksumBytes (rmcBodyValid env dd mm yy) := by
  have hbit : (checksumBytes (rmcBodyValid env dd mm yy)).testBit 6 = true := by
    have h1 := cs_testBit6_false _ (numStr_rmcTime env.sit.GPSLastFixSinceMidnightUTC)
    have h2 := cs_testBit6_false _ (numStr_fmtF 10 5 (dmOut (fracAbs env.sit.GPSLatitude)))
    have h3 := cs_testBit6_false _ (numStr_fmtF 11 5 (dmOut (fracAbs env.sit.GPSLongitude)))
    have h4 := cs_testBit6_false _ (numStr_fmtF 0 1 ⟨(env.sit.GPSGroundSpeed : Int), 1⟩)
    have h5 := cs_testBit6_false _ (numStr_fmtF 0 1 ⟨(env.sit.GPSTrueCourse : Int), 1⟩)
    have h6 := cs_testBit6_false _ (numStr_pad2 dd)
    have h7 := cs_testBit6_false _ (numStr_pad2 mm)
    have h8 := cs_testBit6_false _ (numStr_pad2 (yy % 100))
    unfold rmcBodyValid
    simp only [checksum_append, Nat.testBit_xor, h1, h2, h3, h4, h5, h6, h7, h8,
      status_testBit6, nsOf_testBit6, ewOf_testBit6, mode_testBit6]
    decide
  have h64 := ge64_of_testBit6 hbit
  omega

theorem rmcBodyNoFix_cs_ge16 (env : OwnEnv) (dd mm yy : Nat) :
    16 ≤ checksumBytes (rmcBodyNoFix env dd mm yy) := by
  have hbit : (checksumBytes (rmcBodyNoFix env dd mm yy)).testBit 6 = true := by
    have h6 := cs_testBit6_false _ (numStr_pad2 dd)
    have h7 := cs_testBit6_false _ (numStr_pad2 mm)
    have h8 := cs_testBit6_false _ (numStr_pad2 (yy % 100))
    unfold rmcBodyNoFix
    simp only [checksum_append, Nat.testBit_xor, h6, h7, h8, status_testBit6, mode_testBit6]
    decide
  have h64 := ge64_of_testBit6 hbit
  omega

theorem ggaBodyValid_cs_ge16 (env : OwnEnv) :
    16 ≤ checksumBytes (ggaBodyValid env) := by
  have hbit : (checksumBytes (ggaBodyValid env)).testBit 6 = true := by
    have h1 := cs_testBit6_false _ (numStr_rmcTime env.sit.GPSLastFixSinceMidnightUTC)
    have h2 := cs_testBit6_false _ (numStr_fmtF 10 5 (dmOut (fracAbs env.sit.GPSLatitude)))
    have h3 := cs_testBit6_false _ (numStr_fmtF 11 5 (dmOut (fracAbs env.sit.GPSLongitude)))
    have h4 := cs_testBit6_false _ (numStr_natDec env.sit.GPSFixQuality)
    have h5 := cs_testBit6_false _ (numStr_natDec (ggaNumSV env.sit.GPSSatellites))
    have h6 := cs_testBit6_false _ (numStr_fmtF 0 2 ⟨1, 1⟩)
    have h7 := cs_testBit6_false _ (numStr_fmtF 0 1 (ggaFeetToMeters env.sit.GPSAltitudeMSL))
    have h8 := cs_testBit6_false _ (numStr_fmtF 0 1 (ggaFeetToMeters env.sit.GPSGeoidSep))
    unfold ggaBodyValid
    simp only [checksum_append, Nat.testBit_xor, h1, h2, h3, h4, h5, h6, h7, h8,
      nsOf_testBit6, ewOf_testBit6]
    decide
  have h64 := ge64_of_testBit6 hbit
  omega

theorem ggaBodyNoFix_cs_ge16 : 16 ≤ checksumBytes ggaBodyNoFix := by
  decide

/-! ## Framing facts -/

theorem hexPad2_two : ∀ n, n < 256 → (hexPad2 n).length = 2 ∧ isUpperHexStr (hexPad2 n) = true := by
  decide

theorem hexUC_eq_hexPad2 {n : Nat} (h : 16 ≤ n) : hexUC n = hexPad2 n := by
  unfold hexPad2
  rw [if_neg (by omega)]

/-- A correctly framed NMEA sentence: a `$`, a body, a `*`, the body's XOR
checksum rendered as exactly two uppercase hexadecimal digits, CRLF. -/
def goodFrame (s : String) : Prop :=
  ∃ b, s = "$" ++ b ++ "*" ++ hexPad2 (checksumBytes b) ++ "\r\n"
    ∧ (hexPad2 (checksumBytes b)).length = 2
    ∧ isUpperHexStr (hexPad2 (checksumBytes b)) = true

theorem goodFrame_frameNMEA2 (b : String) : goodFrame (frameNMEA2 b) :=
  ⟨b, rfl, (hexPad2_two _ (checksum_lt_256 b)).1, (hexPad2_two _ (checksum_lt_256 b)).2⟩

theorem goodFrame_frameNMEA1 (b : String) (h : 16 ≤ checksumBytes b) :
    goodFrame (frameNMEA1 b) := by
  refine ⟨b, ?_, (hexPad2_two _ (checksum_lt_256 b)).1, (hexPad2_two _ (checksum_lt_256 b)).2⟩
  unfold frameNMEA1
  rw [hexUC_eq_hexPad2 h]

theorem frameNMEA2_ne_empty (b : String) : frameNMEA2 b ≠ "" := by
  intro h
  have : (frameNMEA2 b).data = [] := by rw [h]
  unfold frameNMEA2 at this
  rw [String.data_append, String.data_append, String.data_append, String.data_append] at this
  simp at this

/-! ## Branch facts about the engine -/

theorem pflaaCompute_some_fixOK {env : OwnEnv} {geo : GeoVec} {ti : TrafficInfo}
    {d : PFLAAData} (h : pflaaCompute env geo ti = some d) : fixOK env = true := by
  unfold pflaaCompute at h
  split at h
  · exact absurd h (by simp)
  · split at h
    · rename_i hg
      simp only [Bool.and_eq_true] at hg
      exact hg.2
    · split at h
      · rename_i hg
        simp only [Bool.and_eq_true] at hg
        split at h
        · exact absurd h (by simp)
        · exact hg.2
      · exact absurd h (by simp)

theorem pflaaCompute_modec_false {env : OwnEnv} {geo : GeoVec} {ti : TrafficInfo}
    {d : PFLAAData} (h : pflaaCompute env geo ti = some d) (hm : d.modec_valid = false) :
    (decide (0 < ti.Alt) && ti.Position_valid && ti.Speed_valid && fixOK env) = true := by
  unfold pflaaCompute at h
  split at h
  · exact absurd h (by simp)
  · split at h
    · rename_i hg
      exact hg
    · split at h
      · split at h
        · exact absurd h (by simp)
        · unfold pflaaCont at h
          split at h
          · exact absurd h (by simp)
          · simp only [Option.some.injEq] at h
            rw [← h] at hm
            simp at hm
      · exact absurd h (by simp)

theorem int16wrap_eq_self {i : Int} (h1 : -32768 ≤ i) (h2 : i ≤ 32767) : int16wrap i = i := by
  unfold int16wrap
  rw [Int.emod_eq_of_lt (by omega) (by omega)]
  omega

theorem decAux_succ_ne_nil (fuel n : Nat) : decAux (fuel + 1) n ≠ [] := by
  unfold decAux
  split
  · simp
  · simp

theorem natDec_data_ne_nil (n : Nat) : (natDec n).data ≠ [] :=
  decAux_succ_ne_nil n n

theorem str_ne_empty {s : String} (h : s.data ≠ []) : s ≠ "" := by
  intro he
  rw [he] at h
  exact h rfl

theorem zPad_data (w : Nat) (s : String) :
    (zPad w s).data = List.replicate (w - s.data.length) '0' ++ s.data := rfl

theorem fmtF_ne_empty (w p : Nat) (x : Frac) : fmtF w p x ≠ "" := by
  apply str_ne_empty
  unfold fmtF
  rw [zPad_data]
  intro hnil
  rcases List.append_eq_nil.mp hnil with ⟨_, hs⟩
  split at hs
  · rw [String.data_append] at hs
    rcases List.append_eq_nil.mp hs with ⟨h1, _⟩
    simp at h1
  · split at hs
    · exact natDec_data_ne_nil _ hs
    · rw [String.data_append, String.data_append] at hs
      rcases List.append_eq_nil.mp hs with ⟨h1, _⟩
      rcases List.append_eq_nil.mp h1 with ⟨h2, _⟩
      exact natDec_data_ne_nil _ h2

/-! ## ASCII bodies: where the rune-start and byte-wise checksums agree -/

theorem asciiStr_append (a b : String) (ha : asciiStr a) (hb : asciiStr b) :
    asciiStr (a ++ b) := by
  intro c hc
  rw [String.data_append] at hc
  rcases List.mem_append.mp hc with h | h
  · exact ha c h
  · exact hb c h

theorem asciiStr_of_numStr {s : String} (h : numStr s) : asciiStr s := by
  intro c hc
  have := h c hc
  omega

theorem hexDigitChar_lt (n : Nat) : (hexDigitChar n).toNat < 128 := by
  unfold hexDigitChar
  split <;> decide

theorem hexAux_chars (fuel : Nat) : ∀ n c, c ∈ hexAux fuel n → c.toNat < 128 := by
  induction fuel with
  | zero => intro n c hc; simp [hexAux] at hc
  | succ fuel ih =>
    intro n c hc
    unfold hexAux at hc
    split at hc
    · simp at hc; subst hc; exact hexDigitChar_lt n
    · rcases List.mem_append.mp hc with h | h
      · exact ih _ c h
      · simp at h; subst h; exact hexDigitChar_lt _

theorem asciiStr_hexUC (n : Nat) : asciiStr (hexUC n) :=
  fun c hc => hexAux_chars (n + 1) n c hc

theorem asciiStr_status (env : OwnEnv) : asciiStr (rmcStatus env) := by
  unfold rmcStatus
  split <;> decide

theorem asciiStr_nsOf (x : Frac) : asciiStr (nsOf x) := by
  unfold nsOf
  split <;> decide

theorem asciiStr_ewOf (x : Frac) : asciiStr (ewOf x) := by
  unfold ewOf
  split <;> decide

theorem asciiStr_mode (q : Nat) : asciiStr (rmcMode q) := by
  unfold rmcMode
  split
  · decide
  · split <;> decide

theorem asciiStr_rmcBodyValid (env : OwnEnv) (dd mm yy : Nat) :
    asciiStr (rmcBodyValid env dd mm yy) := by
  unfold rmcBodyValid
  refine asciiStr_append _ _ ?_ (asciiStr_mode _)
  refine asciiStr_append _ _ ?_ (by decide)
  refine asciiStr_append _ _ ?_ (asciiStr_of_numStr (numStr_pad2 _))
  refine asciiStr_append _ _ ?_ (asciiStr_of_numStr (numStr_pad2 _))
  refine asciiStr_append _ _ ?_ (asciiStr_of_numStr (numStr_pad2 _))
  refine asciiStr_append _ _ ?_ (by decide)
  refine asciiStr_append _ _ ?_ (asciiStr_of_numStr (numStr_fmtF _ _ _))
  refine asciiStr_append _ _ ?_ (by decide)
  refine asciiStr_append _ _ ?_ (asciiStr_of_numStr (numStr_fmtF _ _ _))
  refine asciiStr_append _ _ ?_ (by decide)
  refine asciiStr_append _ _ ?_ (asciiStr_ewOf _)
  refine asciiStr_append _ _ ?_ (by decide)
  refine asciiStr_append _ _ ?_ (asciiStr_of_numStr (numStr_fmtF _ _ _))
  refine asciiStr_append _ _ ?_ (by decide)
  refine asciiStr_append _ _ ?_ (asciiStr_nsOf _)
  refine asciiStr_append _ _ ?_ (by decide)
  refine asciiStr_append _ _ ?_ (asciiStr_of_numStr (numStr_fmtF _ _ _))
  refine asciiStr_append _ _ ?_ (by decide)
  refine asciiStr_append _ _ ?_ (asciiStr_status _)
  refine asciiStr_append _ _ ?_ (by decide)
  refine asciiStr_append _ _ ?_ (asciiStr_of_numStr (numStr_rmcTime _))
  decide

theorem asciiStr_rmcBodyNoFix (env : OwnEnv) (dd mm yy : Nat) :
    asciiStr (rmcBodyNoFix env dd mm yy) := by
  unfold rmcBodyNoFix
  refine asciiStr_append _ _ ?_ (asciiStr_mode _)
  refine asciiStr_append _ _ ?_ (by decide)
  refine asciiStr_append _ _ ?_ (asciiStr_of_numStr (numStr_pad2 _))
  refine asciiStr_append _ _ ?_ (asciiStr_of_numStr (numStr_pad2 _))
  refine asciiStr_append _ _ ?_ (asciiStr_of_numStr (numStr_pad2 _))
  refine asciiStr_append _ _ ?_ (by decide)
  refine asciiStr_append _ _ ?_ (asciiStr_status _)
  decide

theorem asciiStr_ggaBodyValid (env : OwnEnv) : asciiStr (ggaBodyValid env) := by
  unfold ggaBodyValid
  refine asciiStr_append _ _ ?_ (by decide)
  refine asciiStr_append _ _ ?_ (asciiStr_of_numStr (numStr_fmtF _ _ _))
  refine asciiStr_append _ _ ?_ (by decide)
  refine asciiStr_append _ _ ?_ (asciiStr_of_numStr (numStr_fmtF _ _ _))
  refine asciiStr_append _ _ ?_ (by decide)
  refine asciiStr_append _ _ ?_ (asciiStr_of_numStr (numStr_fmtF _ _ _))
  refine asciiStr_append _ _ ?_ (by decide)
  refine asciiStr_append _ _ ?_ (asciiStr_of_numStr (numStr_natDec _))
  refine asciiStr_append _ _ ?_ (by decide)
  refine asciiStr_append _ _ ?_ (asciiStr_of_numStr (numStr_natDec _))
  refine asciiStr_append _ _ ?_ (by decide)
  refine asciiStr_append _ _ ?_ (asciiStr_ewOf _)
  refine asciiStr_append _ _ ?_ (by decide)
  refine asciiStr_append _ _ ?_ (asciiStr_of_numStr (numStr_fmtF _ _ _))
  refine asciiStr_append _ _ ?_ (by decide)
  refine asciiStr_append _ _ ?_ (asciiStr_nsOf _)
  refine asciiStr_append _ _ ?_ (by decide)
  refine asciiStr_append _ _ ?_ (asciiStr_of_numStr (numStr_fmtF _ _ _))
  refine asciiStr_append _ _ ?_ (by decide)
  refine asciiStr_append _ _ ?_ (asciiStr_of_numStr (numStr_rmcTime _))
  decide

theorem asciiStr_joinComma : ∀ (l : List String), (∀ x ∈ l, asciiStr x) → asciiStr (joinComma l)
  | [], _ => by decide
  | [s], h => h s (by simp)
  | s :: b :: bs, h =>
    asciiStr_append _ _ (asciiStr_append _ _ (h s (by simp)) (by decide))
      (asciiStr_joinComma (b :: bs) (fun x hx => h x (List.mem_cons_of_mem _ hx)))

theorem asciiStr_pflauBody (aL : Nat) (b : Frac) (aT : Nat) (rv : Int) (di : Frac) (ic : Nat) :
    asciiStr (joinComma (pflauFields aL b aT rv di ic)) := by
  apply asciiStr_joinComma
  intro x hx
  simp only [pflauFields, List.mem_cons, List.not_mem_nil, or_false] at hx
  rcases hx with rfl | rfl | rfl | rfl | rfl | rfl | rfl | rfl | rfl | rfl | rfl
  · decide
  · decide
  · decide
  · decide
  · decide
  · exact asciiStr_of_numStr (numStr_natDec _)
  · exact asciiStr_of_numStr (numStr_intDec _)
  · exact asciiStr_of_numStr (numStr_natDec _)
  · exact asciiStr_of_numStr (numStr_intDec _)
  · exact asciiStr_of_numStr (numStr_intDec _)
  · exact asciiStr_hexUC _

theorem pflaaCompute_fields_ascii {env : OwnEnv} {geo : GeoVec} {ti : TrafficInfo}
    {d : PFLAAData} (h : pflaaCompute env geo ti = some d) :
    asciiStr d.rEast ∧ asciiStr d.track ∧ asciiStr d.gSpeed ∧ asciiStr d.cRate := by
  unfold pflaaCompute at h
  split at h
  · exact absurd h (by simp)
  · split at h
    · unfold pflaaCont at h
      split at h
      · exact absurd h (by simp)
      · simp only [Option.some.injEq] at h
        subst h
        refine ⟨asciiStr_of_numStr (numStr_intDec _), asciiStr_of_numStr (numStr_natDec _), ?_, ?_⟩
        · show asciiStr (if ti.Speed_valid = true then
              intDec (int16ofF (Frac.mul ⟨(ti.Speed : Int), 1⟩ ⟨5144, 10000⟩)) else "")
          split
          · exact asciiStr_of_numStr (numStr_intDec _)
          · decide
        · show asciiStr (if ti.Speed_valid = true then
              fmtF 0 1 (clampClimb ((ftToMeters (Frac.ofInt ti.Vvel)).divNat 60)) else "")
          split
          · exact asciiStr_of_numStr (numStr_fmtF _ _ _)
          · decide
    · split at h
      · split at h
        · exact absurd h (by simp)
        · unfold pflaaCont at h
          split at h
          · exact absurd h (by simp)
          · simp only [Option.some.injEq] at h
            subst h
            refine ⟨?_, ?_, ?_, ?_⟩
            · show asciiStr ""
              decide
            · show asciiStr ""
              decide
            · show asciiStr (if ti.Speed_valid = true then
                  intDec (int16ofF (Frac.mul ⟨(ti.Speed : Int), 1⟩ ⟨5144, 10000⟩)) else "")
              split
              · exact asciiStr_of_numStr (numStr_intDec _)
              · decide
            · show asciiStr (if ti.Speed_valid = true then
                  fmtF 0 1 (clampClimb ((ftToMeters (Frac.ofInt ti.Vvel)).divNat 60)) else "")
              split
              · exact asciiStr_of_numStr (numStr_fmtF _ _ _)
              · decide
      · exact absurd h (by simp)

theorem asciiStr_pflaaBody {env : OwnEnv} {geo : GeoVec} {ti : TrafficInfo} {d : PFLAAData}
    (h : pflaaCompute env geo ti = some d) (htail : asciiStr ti.Tail) :
    asciiStr (joinComma (pflaaFields ti d)) := by
  obtain ⟨h1, h2, h3, h4⟩ := pflaaCompute_fields_ascii h
  apply asciiStr_joinComma
  intro x hx
  simp only [pflaaFields, List.mem_cons, List.not_mem_nil, or_false] at hx
  rcases hx with rfl | rfl | rfl | rfl | rfl | rfl | rfl | rfl | rfl | rfl | rfl | rfl
  · decide
  · exact asciiStr_of_numStr (numStr_natDec _)
  · exact asciiStr_of_numStr (numStr_intDec _)
  · exact h1
  · exact asciiStr_of_numStr (numStr_intDec _)
  · exact asciiStr_of_numStr (numStr_natDec _)
  · exact asciiStr_append _ _ (asciiStr_append _ _ (asciiStr_hexUC _) (by decide)) htail
  · exact h2
  · decide
  · exact h3
  · exact h4
  · exact asciiStr_of_numStr (numStr_natDec _)

/-- The byte-wise-XOR framing property the specification asserts: the
trailing field is two uppercase hex digits of the XOR over ALL bytes of
the body. -/
def fullGoodFrame (s : String) : Prop :=
  ∃ b, s = "$" ++ b ++ "*" ++ hexPad2 (specChecksumAllBytes b) ++ "\r\n"
    ∧ (hexPad2 (specChecksumAllBytes b)).length = 2
    ∧ isUpperHexStr (hexPad2 (specChecksumAllBytes b)) = true

theorem fullGoodFrame_frameNMEA2 (b : String) (h : asciiStr b) :
    fullGoodFrame (frameNMEA2 b) := by
  refine ⟨b, ?_, (hexPad2_two _ (spec_checksum_lt_256 b)).1,
    (hexPad2_two _ (spec_checksum_lt_256 b)).2⟩
  unfold frameNMEA2
  rw [ascii_checksum_eq b h]

theorem fullGoodFrame_frameNMEA1 (b : String) (hge : 16 ≤ checksumBytes b) (h : asciiStr b) :
    fullGoodFrame (frameNMEA1 b) := by
  refine ⟨b, ?_, (hexPad2_two _ (spec_checksum_lt_256 b)).1,
    (hexPad2_two _ (spec_checksum_lt_256 b)).2⟩
  unfold frameNMEA1
  rw [hexUC_eq_hexPad2 hge, ascii_checksum_eq b h]

/-! ## Claim theorems -/

/-- C9: a `broadcast` event processed by the `handleMessages` registry
dispatches the published message to the delivery channel of every client
registered at that moment and to no other channel, one delivery per
registered client with exactly that message, and leaves the registered
client set unchanged. -/
theorem claim9_broadcast (clients : List (Nat × Nat)) (s : String) :
    (handleMessagesStep clients (NetEvent.msg s)).1 = clients
    ∧ (∀ ch m, (ch, m) ∈ (handleMessagesStep clients (NetEvent.msg s)).2
        ↔ (m = s ∧ ∃ conn, (conn, ch) ∈ clients))
    ∧ (handleMessagesStep clients (NetEvent.msg s)).2.length = clients.length := by
  refine ⟨rfl, ?_, by simp [handleMessagesStep]⟩
  intro ch m
  simp only [handleMessagesStep, List.mem_map]
  constructor
  · rintro ⟨⟨pc, pch⟩, hmem, heq⟩
    simp only [Prod.mk.injEq] at heq
    exact ⟨heq.2.symm, pc, by rw [heq.1] at hmem; exact hmem⟩
  · rintro ⟨hm, conn, hmem⟩
    exact ⟨(conn, ch), hmem, by rw [hm]⟩

/-- Witness for C9 at a concrete two-client registry. -/
theorem claim9_broadcast_witness :
    (handleMessagesStep [(1, 10), (2, 20)] (NetEvent.msg "x")).1 = [(1, 10), (2, 20)]
    ∧ (10, "x") ∈ (handleMessagesStep [(1, 10), (2, 20)] (NetEvent.msg "x")).2 :=
  ⟨(claim9_broadcast [(1, 10), (2, 20)] "x").1,
   ((claim9_broadcast [(1, 10), (2, 20)] "x").2.1 10 "x").mpr ⟨rfl, 1, by decide⟩⟩

/-- C10: when `isGPSValid()` holds but `GPSFixQuality = 0`, `makeGPRMCString`
takes the populated (valid-fix) body — latitude, longitude, speed and course
fields are all formatted non-empty — while the status letter is `V` and the
mode letter is `N`: field blanking depends only on `isGPSValid()`, the
status letter on both. -/
theorem claim10_gprmc_quality_zero (env : OwnEnv) (dd mm yy : Nat)
    (hg : env.gpsValid = true) (hq : env.sit.GPSFixQuality = 0) :
    makeGPRMCString env dd mm yy = frameNMEA1 (rmcBodyValid env dd mm yy)
    ∧ rmcStatus env = "V"
    ∧ rmcMode env.sit.GPSFixQuality = "N"
    ∧ fmtF 10 5 (dmOut (fracAbs env.sit.GPSLatitude)) ≠ ""
    ∧ fmtF 11 5 (dmOut (fracAbs env.sit.GPSLongitude)) ≠ ""
    ∧ fmtF 0 1 ⟨(env.sit.GPSGroundSpeed : Int), 1⟩ ≠ ""
    ∧ fmtF 0 1 ⟨(env.sit.GPSTrueCourse : Int), 1⟩ ≠ "" := by
  refine ⟨?_, ?_, ?_, fmtF_ne_empty _ _ _, fmtF_ne_empty _ _ _, fmtF_ne_empty _ _ _, fmtF_ne_empty _ _ _⟩
  · unfold makeGPRMCString
    rw [if_pos hg]
  · unfold rmcStatus fixOK
    rw [hg, hq]
    simp
  · rw [hq]
    rfl

/-- Witness for C10 at a concrete valid-fix, quality-zero snapshot. -/
theorem claim10_gprmc_quality_zero_witness :
    makeGPRMCString { gpsValid := true, sit := { GPSLatitude := ⟨485, 10⟩ } } 11 10 26
        = frameNMEA1 (rmcBodyValid { gpsValid := true, sit := { GPSLatitude := ⟨485, 10⟩ } } 11 10 26)
    ∧ rmcStatus { gpsValid := true, sit := { GPSLatitude := ⟨485, 10⟩ } } = "V"
    ∧ rmcMode (0 : Nat) = "N" := by
  have h := claim10_gprmc_quality_zero
    { gpsValid := true, sit := { GPSLatitude := ⟨485, 10⟩ } } 11 10 26 rfl rfl
  exact ⟨h.1, h.2.1, h.2.2.1⟩

theorem pflaaCompute_none_of_insufficiency (env : OwnEnv) (geo : GeoVec) (ti : TrafficInfo)
    (h : ti.Alt ≤ 0
      ∨ (¬(ti.Position_valid = true ∧ ti.Speed_valid = true ∧ fixOK env = true)
          ∧ ¬(ti.Position_valid = false ∧ ti.Speed_valid = false ∧ ti.Track = 0 ∧ fixOK env = true))
      ∨ ((ti.Position_valid = false ∧ ti.Speed_valid = false ∧ ti.Track = 0 ∧ fixOK env = true)
          ∧ signalRange ti.SignalLevel = 0)
      ∨ ((ti.Position_valid = false ∧ ti.Speed_valid = false ∧ ti.Track = 0 ∧ fixOK env = true)
          ∧ InBetween (relVert env ti) (-310) 310 = false)) :
    pflaaCompute env geo ti = none := by
  unfold pflaaCompute
  rcases h with halt | ⟨hnf, hnm⟩ | ⟨⟨hp, hs, ht, hf⟩, hsr⟩ | ⟨⟨hp, hs, ht, hf⟩, hib⟩
  · rw [if_pos]
    simp
    omega
  · by_cases halt : 0 < ti.Alt
    · rw [if_neg (by simp; omega), if_neg, if_neg]
      · intro hc
        simp only [Bool.and_eq_true, Bool.not_eq_true', decide_eq_true_eq,
          decide_eq_false_iff_not] at hc
        have htr : ¬(0 < ti.Track) := hc.1.2
        exact hnm ⟨hc.1.1.1.2, hc.1.1.2, by omega, hc.2⟩
      · intro hc
        simp only [Bool.and_eq_true, decide_eq_true_eq] at hc
        exact hnf ⟨hc.1.1.2, hc.1.2, hc.2⟩
    · rw [if_pos]
      simp
      omega
  · by_cases halt : 0 < ti.Alt
    · rw [if_neg (by simp; omega), if_neg (by simp [hp]), if_pos (by simp [hp, hs, hf, halt]; omega),
        if_pos (by simp [hsr])]
    · rw [if_pos]
      simp
      omega
  · by_cases halt : 0 < ti.Alt
    · rw [if_neg (by simp; omega), if_neg (by simp [hp]), if_pos (by simp [hp, hs, hf, halt]; omega)]
      split
      · rfl
      · unfold pflaaCont
        rw [if_pos (by simp [hib])]
    · rw [if_pos]
      simp
      omega

/-- C8: every input-insufficiency condition — non-positive target altitude,
no applicable classification regime, a zero degraded-mode nominal range, or
a degraded-mode vertical offset outside ±310 m — yields `valid = false`
with an empty PFLAA string and no PFLAU handed to `sendNetFLARM` at all. -/
theorem claim8_reject_silent (env : OwnEnv) (geo : GeoVec) (ti : TrafficInfo)
    (h : ti.Alt ≤ 0
      ∨ (¬(ti.Position_valid = true ∧ ti.Speed_valid = true ∧ fixOK env = true)
          ∧ ¬(ti.Position_valid = false ∧ ti.Speed_valid = false ∧ ti.Track = 0 ∧ fixOK env = true))
      ∨ ((ti.Position_valid = false ∧ ti.Speed_valid = false ∧ ti.Track = 0 ∧ fixOK env = true)
          ∧ signalRange ti.SignalLevel = 0)
      ∨ ((ti.Position_valid = false ∧ ti.Speed_valid = false ∧ ti.Track = 0 ∧ fixOK env = true)
          ∧ InBetween (relVert env ti) (-310) 310 = false)) :
    (makeFlarmPFLAAString env geo ti).msg = ""
    ∧ (makeFlarmPFLAAString env geo ti).valid = false
    ∧ (makeFlarmPFLAAString env geo ti).pflau = none := by
  have hc := pflaaCompute_none_of_insufficiency env geo ti h
  unfold makeFlarmPFLAAString
  rw [hc]
  exact ⟨rfl, rfl, rfl⟩

/-- Witness for C8: a target with altitude 0 under a valid fix is rejected
with no output. -/
theorem claim8_reject_silent_witness :
    (makeFlarmPFLAAString { gpsValid := true, sit := { GPSFixQuality := 1 } } {} { Alt := 0 }).msg = ""
    ∧ (makeFlarmPFLAAString { gpsValid := true, sit := { GPSFixQuality := 1 } } {} { Alt := 0 }).valid = false
    ∧ (makeFlarmPFLAAString { gpsValid := true, sit := { GPSFixQuality := 1 } } {} { Alt := 0 }).pflau = none :=
  claim8_reject_silent { gpsValid := true, sit := { GPSFixQuality := 1 } } {} { Alt := 0 }
    (Or.inl (by decide))

/-- C1 counterexample: a full-fix target whose tail string contains the
multi-byte character `Ä`.  The emitted PFLAA sentence's trailing field is
the XOR of the rune-start bytes only (the Go loop `for i := range msg`
never visits UTF-8 continuation bytes), which differs from the byte-wise
XOR across the body: the claim that the trailing field always equals the
byte-wise XOR of the body between `$` and `*` fails at this state. -/
theorem claim1_checksum_counterexample :
    ({ Alt := 1000, Position_valid := true, Speed_valid := true, Track := 90,
        Tail := "Ä" } : TrafficInfo).Tail = "Ä"
    ∧ (makeFlarmPFLAAString { gpsValid := true, sit := { GPSFixQuality := 1 } }
        { dist := ⟨500, 1⟩, distN := ⟨400, 1⟩ }
        { Alt := 1000, Position_valid := true, Speed_valid := true, Track := 90,
          Tail := "Ä" }).valid = true
    ∧ checksumFieldOf (makeFlarmPFLAAString { gpsValid := true, sit := { GPSFixQuality := 1 } }
        { dist := ⟨500, 1⟩, distN := ⟨400, 1⟩ }
        { Alt := 1000, Position_valid := true, Speed_valid := true, Track := 90,
          Tail := "Ä" }).msg
      = hexPad2 (checksumBytes (sentenceBody (makeFlarmPFLAAString
          { gpsValid := true, sit := { GPSFixQuality := 1 } }
          { dist := ⟨500, 1⟩, distN := ⟨400, 1⟩ }
          { Alt := 1000, Position_valid := true, Speed_valid := true, Track := 90,
            Tail := "Ä" }).msg))
    ∧ checksumFieldOf (makeFlarmPFLAAString { gpsValid := true, sit := { GPSFixQuality := 1 } }
        { dist := ⟨500, 1⟩, distN := ⟨400, 1⟩ }
        { Alt := 1000, Position_valid := true, Speed_valid := true, Track := 90,
          Tail := "Ä" }).msg
      ≠ hexPad2 (specChecksumAllBytes (sentenceBody (makeFlarmPFLAAString
          { gpsValid := true, sit := { GPSFixQuality := 1 } }
          { dist := ⟨500, 1⟩, distN := ⟨400, 1⟩ }
          { Alt := 1000, Position_valid := true, Speed_valid := true, Track := 90,
            Tail := "Ä" }).msg))
    ∧ checksumBytes (sentenceBody (makeFlarmPFLAAString
          { gpsValid := true, sit := { GPSFixQuality := 1 } }
          { dist := ⟨500, 1⟩, distN := ⟨400, 1⟩ }
          { Alt := 1000, Position_valid := true, Speed_valid := true, Track := 90,
            Tail := "Ä" }).msg)
      ≠ specChecksumAllBytes (sentenceBody (makeFlarmPFLAAString
          { gpsValid := true, sit := { GPSFixQuality := 1 } }
          { dist := ⟨500, 1⟩, distN := ⟨400, 1⟩ }
          { Alt := 1000, Position_valid := true, Speed_valid := true, Track := 90,
            Tail := "Ä" }).msg) := by
  refine ⟨rfl, by decide, by decide, by decide, by decide⟩

/-- C1 amended: every generated sentence is framed `$<body>*<CC>\x0d\x0a`
where `<CC>` is exactly two uppercase hexadecimal digits of the XOR of the
rune-start bytes the Go checksum loop visits (for PFLAA/PFLAU the `%02X`
verb pads values below 0x10; for GPRMC/GPGGA with `%X` the odd letter
count of their all-ASCII bodies forces bit 6 of the XOR, so the field is
still two digits on every input state).  That XOR is the byte-wise XOR of
the whole body for every PFLAU, GPRMC and GPGGA sentence, and for the
PFLAA sentence whenever `ti.Tail` is ASCII-only; a tail with a multi-byte
character makes the field differ from the byte-wise XOR. -/
theorem claim1_checksum_amended (env : OwnEnv) (geo : GeoVec) (ti : TrafficInfo) (dd mm yy : Nat) :
    ((makeFlarmPFLAAString env geo ti).valid = true →
        goodFrame (makeFlarmPFLAAString env geo ti).msg)
    ∧ (∀ s, (makeFlarmPFLAAString env geo ti).pflau = some s → goodFrame s ∧ fullGoodFrame s)
    ∧ goodFrame (makeGPRMCString env dd mm yy)
    ∧ fullGoodFrame (makeGPRMCString env dd mm yy)
    ∧ goodFrame (makeGPGGAString env)
    ∧ fullGoodFrame (makeGPGGAString env)
    ∧ (asciiStr ti.Tail → (makeFlarmPFLAAString env geo ti).valid = true →
        fullGoodFrame (makeFlarmPFLAAString env geo ti).msg) := by
  refine ⟨?_, ?_, ?_, ?_, ?_, ?_, ?_⟩
  · intro hv
    cases hc : pflaaCompute env geo ti with
    | none =>
      unfold makeFlarmPFLAAString at hv
      rw [hc] at hv
      exact absurd hv (by simp)
    | some d =>
      unfold makeFlarmPFLAAString
      rw [hc]
      exact goodFrame_frameNMEA2 _
  · intro s hs
    cases hc : pflaaCompute env geo ti with
    | none =>
      unfold makeFlarmPFLAAString at hs
      rw [hc] at hs
      exact absurd hs (by simp)
    | some d =>
      have hfix := pflaaCompute_some_fixOK hc
      unfold makeFlarmPFLAAString at hs
      rw [hc] at hs
      simp only [Option.some.injEq] at hs
      rw [← hs]
      split
      · exact ⟨goodFrame_frameNMEA2 _, fullGoodFrame_frameNMEA2 _ (asciiStr_pflauBody _ _ _ _ _ _)⟩
      · exact ⟨goodFrame_frameNMEA2 _, fullGoodFrame_frameNMEA2 _ (by decide)⟩
  · unfold makeGPRMCString
    split
    · exact goodFrame_frameNMEA1 _ (rmcBodyValid_cs_ge16 env dd mm yy)
    · exact goodFrame_frameNMEA1 _ (rmcBodyNoFix_cs_ge16 env dd mm yy)
  · unfold makeGPRMCString
    split
    · exact fullGoodFrame_frameNMEA1 _ (rmcBodyValid_cs_ge16 env dd mm yy) (asciiStr_rmcBodyValid env dd mm yy)
    · exact fullGoodFrame_frameNMEA1 _ (rmcBodyNoFix_cs_ge16 env dd mm yy) (asciiStr_rmcBodyNoFix env dd mm yy)
  · unfold makeGPGGAString
    split
    · exact goodFrame_frameNMEA1 _ (ggaBodyValid_cs_ge16 env)
    · exact goodFrame_frameNMEA1 _ ggaBodyNoFix_cs_ge16
  · unfold makeGPGGAString
    split
    · exact fullGoodFrame_frameNMEA1 _ (ggaBodyValid_cs_ge16 env) (asciiStr_ggaBodyValid env)
    · exact fullGoodFrame_frameNMEA1 _ ggaBodyNoFix_cs_ge16 (by decide)
  · intro htail hv
    cases hc : pflaaCompute env geo ti with
    | none =>
      unfold makeFlarmPFLAAString at hv
      rw [hc] at hv
      exact absurd hv (by simp)
    | some d =>
      unfold makeFlarmPFLAAString
      rw [hc]
      exact fullGoodFrame_frameNMEA2 _ (asciiStr_pflaaBody hc htail)

/-- Witness for C1 amended at a concrete full-fix state with an ASCII
tail: all four sentence kinds are generated and well-framed, the PFLAA
one also in the full byte-wise sense. -/
theorem claim1_checksum_amended_witness :
    goodFrame (makeFlarmPFLAAString { gpsValid := true, sit := { GPSFixQuality := 1 } }
      { dist := ⟨500, 1⟩, distN := ⟨400, 1⟩, distE := ⟨30, 1⟩ }
      { Alt := 1000, Position_valid := true, Speed_valid := true, Track := 90 }).msg
    ∧ (goodFrame ((makeFlarmPFLAAString { gpsValid := true, sit := { GPSFixQuality := 1 } }
        { dist := ⟨500, 1⟩, distN := ⟨400, 1⟩, distE := ⟨30, 1⟩ }
        { Alt := 1000, Position_valid := true, Speed_valid := true, Track := 90 }).pflau.getD "")
      ∧ fullGoodFrame ((makeFlarmPFLAAString { gpsValid := true, sit := { GPSFixQuality := 1 } }
        { dist := ⟨500, 1⟩, distN := ⟨400, 1⟩, distE := ⟨30, 1⟩ }
        { Alt := 1000, Position_valid := true, Speed_valid := true, Track := 90 }).pflau.getD ""))
    ∧ goodFrame (makeGPRMCString { gpsValid := true, sit := { GPSFixQuality := 1 } } 11 10 26)
    ∧ fullGoodFrame (makeGPRMCString { gpsValid := true, sit := { GPSFixQuality := 1 } } 11 10 26)
    ∧ goodFrame (makeGPGGAString { gpsValid := true, sit := { GPSFixQuality := 1 } })
    ∧ fullGoodFrame (makeGPGGAString { gpsValid := true, sit := { GPSFixQuality := 1 } })
    ∧ fullGoodFrame (makeFlarmPFLAAString { gpsValid := true, sit := { GPSFixQuality := 1 } }
      { dist := ⟨500, 1⟩, distN := ⟨400, 1⟩, distE := ⟨30, 1⟩ }
      { Alt := 1000, Position_valid := true, Speed_valid := true, Track := 90 }).msg := by
  have h := claim1_checksum_amended { gpsValid := true, sit := { GPSFixQuality := 1 } }
    { dist := ⟨500, 1⟩, distN := ⟨400, 1⟩, distE := ⟨30, 1⟩ }
    { Alt := 1000, Position_valid := true, Speed_valid := true, Track := 90 } 11 10 26
  exact ⟨h.1 (by decide), h.2.1 _ (by decide), h.2.2.1, h.2.2.2.1, h.2.2.2.2.1,
    h.2.2.2.2.2.1, h.2.2.2.2.2.2 (by decide) (by decide)⟩

/-- C4 counterexample: own fix valid (quality 1) but the target has
altitude 0 — no alarm condition is met, yet no zero/blank PFLAU is emitted
either: the function returns before its `sendNetFLARM` call, refuting the
claim that a valid fix without an alarm always yields the blank PFLAU. -/
theorem claim4_pflau_counterexample :
    fixOK { gpsValid := true, sit := { GPSFixQuality := 1 } } = true
    ∧ ({ Alt := 0 } : TrafficInfo).Alt = 0
    ∧ (makeFlarmPFLAAString { gpsValid := true, sit := { GPSFixQuality := 1 } } {} { Alt := 0 }).pflau = none := by
  refine ⟨by decide, rfl, by decide⟩

/-- C4 amended: PFLAU emission as the code implements it.  Nothing is
handed to `sendNetFLARM` when no valid fix exists, and nothing (not even a
blank PFLAU) when classification rejects the input — even under a valid
fix.  Whenever classification completes, the fix is necessarily valid and
exactly one PFLAU is handed over: the populated one iff the computed alarm
level is positive and the target is not in degraded-signal mode, the fixed
zero/blank one otherwise; the empty string is never handed over. -/
theorem claim4_pflau_amended (env : OwnEnv) (geo : GeoVec) (ti : TrafficInfo) :
    (fixOK env = false → (makeFlarmPFLAAString env geo ti).pflau = none)
    ∧ (pflaaCompute env geo ti = none → (makeFlarmPFLAAString env geo ti).pflau = none)
    ∧ (∀ d, pflaaCompute env geo ti = some d →
        fixOK env = true
        ∧ (makeFlarmPFLAAString env geo ti).pflau = some (
            if (decide (0 < d.alarmLevel) && !d.modec_valid) = true then
              frameNMEA2 (joinComma (pflauFields d.alarmLevel ti.Bearing d.alarmType d.relativeVertical d.dist ti.Icao_addr))
            else frameNMEA2 pflauBlankBody))
    ∧ (makeFlarmPFLAAString env geo ti).pflau ≠ some "" := by
  refine ⟨?_, ?_, ?_, ?_⟩
  · intro hfx
    cases hc : pflaaCompute env geo ti with
    | none =>
      unfold makeFlarmPFLAAString
      rw [hc]
    | some d =>
      have := pflaaCompute_some_fixOK hc
      rw [this] at hfx
      exact absurd hfx (by simp)
  · intro hc
    unfold makeFlarmPFLAAString
    rw [hc]
  · intro d hc
    have hfix := pflaaCompute_some_fixOK hc
    refine ⟨hfix, ?_⟩
    unfold makeFlarmPFLAAString
    rw [hc]
    rw [hfix]
    simp
  · cases hc : pflaaCompute env geo ti with
    | none =>
      unfold makeFlarmPFLAAString
      rw [hc]
      simp
    | some d =>
      have hfix := pflaaCompute_some_fixOK hc
      unfold makeFlarmPFLAAString
      rw [hc]
      simp only [Option.some.injEq, ne_eq]
      intro hcon
      split at hcon
      all_goals exact frameNMEA2_ne_empty _ hcon

/-- Witness for C4 amended: with no valid fix nothing is emitted, and the
empty string is never emitted. -/
theorem claim4_pflau_amended_witness :
    (makeFlarmPFLAAString {} {} {}).pflau = none
    ∧ (makeFlarmPFLAAString {} {} {}).pflau ≠ some "" :=
  ⟨(claim4_pflau_amended {} {} {}).1 rfl, (claim4_pflau_amended {} {} {}).2.2.2⟩

/-- C6 counterexample: `makeFlarmPFLAAString` is not free of writes — on a
completed classification it reaches its `sendNetFLARM(msgPFLAU)` call,
which pushes the PFLAU sentence onto the shared TCP broadcast channel
`msgchan` (and onto UDP when configured): the function is not pure. -/
theorem claim6_purity_counterexample :
    (makeFlarmPFLAAString { gpsValid := true, sit := { GPSFixQuality := 1 } }
        { dist := ⟨500, 1⟩, distN := ⟨400, 1⟩ }
        { Alt := 1000, Position_valid := true, Speed_valid := true, Track := 90 }).pflau
      = some ((makeFlarmPFLAAString { gpsValid := true, sit := { GPSFixQuality := 1 } }
        { dist := ⟨500, 1⟩, distN := ⟨400, 1⟩ }
        { Alt := 1000, Position_valid := true, Speed_valid := true, Track := 90 }).pflau.getD "")
    ∧ (sendNetFLARM { NetworkFLARM := false }
        ((makeFlarmPFLAAString { gpsValid := true, sit := { GPSFixQuality := 1 } }
          { dist := ⟨500, 1⟩, distN := ⟨400, 1⟩ }
          { Alt := 1000, Position_valid := true, Speed_valid := true, Track := 90 }).pflau.getD "")).tcpChan
      ≠ none
    ∧ (makeFlarmPFLAAString { gpsValid := true, sit := { GPSFixQuality := 1 } }
        { dist := ⟨500, 1⟩, distN := ⟨400, 1⟩ }
        { Alt := 1000, Position_valid := true, Speed_valid := true, Track := 90 }).pflau.getD "" ≠ "" := by
  refine ⟨by decide, by decide, by decide⟩

/-- C6 amended: `makeFlarmPFLAAString` computes its PFLAA sentence and
validity flag purely from the snapshot, but it is not effect-free: on every
input on which classification completes (and only those) it calls
`sendNetFLARM` once with the PFLAU sentence, which always writes that
sentence to the TCP broadcast channel and, exactly when
`globalSettings.NetworkFLARM` is set, sends it over UDP as well. -/
theorem claim6_purity_amended (st : GlobalSettings) (env : OwnEnv) (geo : GeoVec) (ti : TrafficInfo) :
    (pflaaCompute env geo ti = none → (makeFlarmPFLAAString env geo ti).pflau = none)
    ∧ (∀ d, pflaaCompute env geo ti = some d →
        ∃ s, (makeFlarmPFLAAString env geo ti).pflau = some s
          ∧ (sendNetFLARM st s).tcpChan = some s
          ∧ (sendNetFLARM st s).udp = (if st.NetworkFLARM then some s else none)) := by
  constructor
  · intro hc
    unfold makeFlarmPFLAAString
    rw [hc]
  · intro d hc
    unfold makeFlarmPFLAAString
    rw [hc]
    exact ⟨_, rfl, rfl, rfl⟩

/-- Witness for C6 amended at a concrete completed classification. -/
theorem claim6_purity_amended_witness :
    ∃ s, (makeFlarmPFLAAString { gpsValid := true, sit := { GPSFixQuality := 1 } }
        { dist := ⟨500, 1⟩, distN := ⟨400, 1⟩ }
        { Alt := 1000, Position_valid := true, Speed_valid := true, Track := 91 }).pflau = some s
      ∧ (sendNetFLARM { NetworkFLARM := true } s).tcpChan = some s
      ∧ (sendNetFLARM { NetworkFLARM := true } s).udp
          = (if ({ NetworkFLARM := true } : GlobalSettings).NetworkFLARM then some s else none) :=
  (claim6_purity_amended { NetworkFLARM := true } { gpsValid := true, sit := { GPSFixQuality := 1 } }
    { dist := ⟨500, 1⟩, distN := ⟨400, 1⟩ }
    { Alt := 1000, Position_valid := true, Speed_valid := true, Track := 91 }).2
    ((pflaaCompute { gpsValid := true, sit := { GPSFixQuality := 1 } }
        { dist := ⟨500, 1⟩, distN := ⟨400, 1⟩ }
        { Alt := 1000, Position_valid := true, Speed_valid := true, Track := 91 }).getD
      ⟨0, 0, 0, "", 0, "", "", "", 0, ⟨0, 1⟩, false⟩)
    (by decide)

theorem fullfix_compute (env : OwnEnv) (geo : GeoVec) (ti : TrafficInfo)
    (h1 : 0 < ti.Alt) (h2 : ti.Position_valid = true) (h3 : ti.Speed_valid = true)
    (h4 : fixOK env = true) :
    pflaaCompute env geo ti
      = pflaaCont env ti (int16ofF geo.distN) (intDec (int16ofF geo.distE)) (natDec ti.Track) geo.dist false := by
  unfold pflaaCompute
  rw [if_neg (by simp [h1]), if_pos (by simp [h1, h2, h3, h4])]

theorem pflaaCont_false_eq (env : OwnEnv) (ti : TrafficInfo) (rN : Int) (rE tr : String) (di : Frac) :
    pflaaCont env ti rN rE tr di false
      = some { alarmLevel := (alarmOf di (relVert env ti)).1,
               alarmType := (alarmOf di (relVert env ti)).2,
               relativeNorth := rN, rEast := rE,
               relativeVertical := relVert env ti, track := tr,
               gSpeed := if ti.Speed_valid then intDec (int16ofF (Frac.mul ⟨(ti.Speed : Int), 1⟩ ⟨5144, 10000⟩)) else "",
               cRate := if ti.Speed_valid then fmtF 0 1 (clampClimb ((ftToMeters (Frac.ofInt ti.Vvel)).divNat 60)) else "",
               acType := acTypeOf ti.Emitter_category,
               dist := di, modec_valid := false } := by
  unfold pflaaCont
  rw [if_neg (by simp)]

/-- Modelled from the spec's words, for comparison only (the source has no
such operation): saturation of an integer to the signed 16-bit range. -/
def specClamp16 (i : Int) : Int :=
  if i > 32767 then 32767 else if i < -32768 then -32768 else i

/-- C3 counterexample: a full-fix target whose north offset is 40000 m.
The emitted relative north is the 16-bit-wrapped value -25536, not the
saturated value 32767 the claim requires. -/
theorem claim3_relpos_counterexample :
    ({ dist := ⟨500, 1⟩, distN := ⟨40000, 1⟩ } : GeoVec).distN = ⟨40000, 1⟩
    ∧ (pflaaCompute { gpsValid := true, sit := { GPSFixQuality := 1 } }
        { dist := ⟨500, 1⟩, distN := ⟨40000, 1⟩ }
        { Alt := 1000, Position_valid := true, Speed_valid := true, Track := 90 }).map
        (fun d => d.relativeNorth) = some (-25536)
    ∧ specClamp16 ((⟨40000, 1⟩ : Frac).truncI) = 32767
    ∧ ((-25536 : Int) ≠ specClamp16 ((⟨40000, 1⟩ : Frac).truncI)) := by
  refine ⟨rfl, by decide, by decide, by decide⟩

/-- C3 amended: in the full-fix regime the emitted relative north/east are
Go's `int16` conversions of the geometric offsets — truncation toward zero
followed by reduction into the 16-bit range (wrap, not saturation) — and
they agree with the plain truncated offsets exactly when those already lie
within [-32768, 32767]. -/
theorem claim3_relpos_amended (env : OwnEnv) (geo : GeoVec) (ti : TrafficInfo)
    (h1 : 0 < ti.Alt) (h2 : ti.Position_valid = true) (h3 : ti.Speed_valid = true)
    (h4 : fixOK env = true) :
    ∃ d, pflaaCompute env geo ti = some d
      ∧ d.relativeNorth = int16ofF geo.distN
      ∧ d.rEast = intDec (int16ofF geo.distE)
      ∧ (-32768 ≤ geo.distN.truncI → geo.distN.truncI ≤ 32767 → d.relativeNorth = geo.distN.truncI)
      ∧ (-32768 ≤ geo.distE.truncI → geo.distE.truncI ≤ 32767 → d.rEast = intDec geo.distE.truncI) := by
  have hc := fullfix_compute env geo ti h1 h2 h3 h4
  rw [pflaaCont_false_eq] at hc
  refine ⟨_, hc, rfl, rfl, ?_, ?_⟩
  · intro ha hb
    show int16ofF geo.distN = geo.distN.truncI
    unfold int16ofF
    exact int16wrap_eq_self ha hb
  · intro ha hb
    show intDec (int16ofF geo.distE) = intDec geo.distE.truncI
    unfold int16ofF
    rw [int16wrap_eq_self ha hb]

/-- Witness for C3 amended at a concrete in-range full-fix state. -/
theorem claim3_relpos_amended_witness :
    ∃ d, pflaaCompute { gpsValid := true, sit := { GPSFixQuality := 1 } }
        { dist := ⟨500, 1⟩, distN := ⟨400, 1⟩, distE := ⟨-30, 1⟩ }
        { Alt := 1000, Position_valid := true, Speed_valid := true, Track := 90 } = some d
      ∧ d.relativeNorth = int16ofF ⟨400, 1⟩
      ∧ d.rEast = intDec (int16ofF ⟨-30, 1⟩)
      ∧ (-32768 ≤ (⟨400, 1⟩ : Frac).truncI → (⟨400, 1⟩ : Frac).truncI ≤ 32767 →
          d.relativeNorth = (⟨400, 1⟩ : Frac).truncI)
      ∧ (-32768 ≤ (⟨-30, 1⟩ : Frac).truncI → (⟨-30, 1⟩ : Frac).truncI ≤ 32767 →
          d.rEast = intDec (⟨-30, 1⟩ : Frac).truncI) :=
  claim3_relpos_amended { gpsValid := true, sit := { GPSFixQuality := 1 } }
    { dist := ⟨500, 1⟩, distN := ⟨400, 1⟩, distE := ⟨-30, 1⟩ }
    { Alt := 1000, Position_valid := true, Speed_valid := true, Track := 90 }
    (by decide) rfl rfl (by decide)

/-- C2 counterexample: an alarming full-fix target with bearing 90° (well
inside ±180°).  The populated PFLAU's relative-bearing field is "0", not
"90": an in-range bearing is not emitted unchanged, because the code has
no branch assigning it and the zero-initialized variable is used. -/
theorem claim2_bearing_counterexample :
    ({ Alt := 1000, Position_valid := true, Speed_valid := true, Track := 90,
        Bearing := ⟨90, 1⟩ } : TrafficInfo).Bearing = ⟨90, 1⟩
    ∧ (makeFlarmPFLAAString { gpsValid := true, sit := { GPSFixQuality := 1 } }
        { dist := ⟨500, 1⟩, distN := ⟨400, 1⟩ }
        { Alt := 1000, Position_valid := true, Speed_valid := true, Track := 90,
          Bearing := ⟨90, 1⟩ }).pflau
      = some ((makeFlarmPFLAAString { gpsValid := true, sit := { GPSFixQuality := 1 } }
        { dist := ⟨500, 1⟩, distN := ⟨400, 1⟩ }
        { Alt := 1000, Position_valid := true, Speed_valid := true, Track := 90,
          Bearing := ⟨90, 1⟩ }).pflau.getD "")
    ∧ sentenceField ((makeFlarmPFLAAString { gpsValid := true, sit := { GPSFixQuality := 1 } }
        { dist := ⟨500, 1⟩, distN := ⟨400, 1⟩ }
        { Alt := 1000, Position_valid := true, Speed_valid := true, Track := 90,
          Bearing := ⟨90, 1⟩ }).pflau.getD "") 6 = "0"
    ∧ ("0" : String) ≠ "90" := by
  refine ⟨rfl, by decide, by decide, by decide⟩

/-- C2 amended: the PFLAU relative-bearing field wraps bearings beyond
±180° by ∓360° as claimed, but a bearing already within ±180° is emitted
as 0 (the variable's initial value), not unchanged. -/
theorem claim2_bearing_amended (aL : Nat) (b : Frac) (aT : Nat) (rv : Int) (di : Frac) (ic : Nat)
    (hd : 0 < b.d) :
    (180 * (b.d : Int) < b.n →
        (pflauFields aL b aT rv di ic).getD 6 "" = intDec (int16ofF (b.sub ⟨360, 1⟩)))
    ∧ (b.n < -180 * (b.d : Int) →
        (pflauFields aL b aT rv di ic).getD 6 "" = intDec (int16ofF (b.add ⟨360, 1⟩)))
    ∧ (-180 * (b.d : Int) ≤ b.n → b.n ≤ 180 * (b.d : Int) →
        (pflauFields aL b aT rv di ic).getD 6 "" = "0") := by
  have hf : (pflauFields aL b aT rv di ic).getD 6 ""
      = intDec (int16ofF (pflauRelativeBearing b)) := rfl
  refine ⟨?_, ?_, ?_⟩
  · intro h1
    rw [hf]
    unfold pflauRelativeBearing
    rw [if_pos (by simp [Frac.blt]; omega)]
  · intro h1
    rw [hf]
    unfold pflauRelativeBearing
    rw [if_neg (by simp [Frac.blt]; omega), if_pos (by simp [Frac.blt]; omega)]
  · intro h1 h2
    rw [hf]
    unfold pflauRelativeBearing
    rw [if_neg (by simp [Frac.blt]; omega), if_neg (by simp [Frac.blt]; omega)]
    decide

/-- Witness for C2 amended: a bearing of 200° wraps to -160, a bearing of
90° is emitted as 0. -/
theorem claim2_bearing_amended_witness :
    (pflauFields 3 ⟨200, 1⟩ 2 0 ⟨500, 1⟩ 1).getD 6 "" = intDec (int16ofF (Frac.sub ⟨200, 1⟩ ⟨360, 1⟩))
    ∧ (pflauFields 3 ⟨90, 1⟩ 2 0 ⟨500, 1⟩ 1).getD 6 "" = "0" :=
  ⟨(claim2_bearing_amended 3 ⟨200, 1⟩ 2 0 ⟨500, 1⟩ 1 (by decide)).1 (by decide),
   (claim2_bearing_amended 3 ⟨90, 1⟩ 2 0 ⟨500, 1⟩ 1 (by decide)).2.2 (by decide) (by decide)⟩

/-- C5 counterexample: a target with valid position and speed but the
track-invalid sentinel (`Track = 0`) is still classified in the full-fix
regime (`modec_valid = false`) and its track is emitted as "0". -/
theorem claim5_fullfix_counterexample :
    ({ Alt := 1000, Position_valid := true, Speed_valid := true, Track := 0 } : TrafficInfo).Track = 0
    ∧ (pflaaCompute { gpsValid := true, sit := { GPSFixQuality := 1 } }
        { dist := ⟨500, 1⟩, distN := ⟨400, 1⟩ }
        { Alt := 1000, Position_valid := true, Speed_valid := true, Track := 0 }).map
        (fun d => d.modec_valid) = some false
    ∧ (pflaaCompute { gpsValid := true, sit := { GPSFixQuality := 1 } }
        { dist := ⟨500, 1⟩, distN := ⟨400, 1⟩ }
        { Alt := 1000, Position_valid := true, Speed_valid := true, Track := 0 }).map
        (fun d => d.track) = some "0" := by
  refine ⟨rfl, by decide, by decide⟩

/-- C5 amended: the full-fix regime is selected exactly when the target has
positive altitude, valid position and valid speed, and the ownship has a
valid fix with nonzero quality — track validity is not consulted, and a
`Track = 0` sentinel is formatted into the sentence as "0". -/
theorem claim5_fullfix_amended (env : OwnEnv) (geo : GeoVec) (ti : TrafficInfo)
    (h1 : 0 < ti.Alt) (h2 : ti.Position_valid = true) (h3 : ti.Speed_valid = true)
    (h4 : fixOK env = true) :
    (∃ d, pflaaCompute env geo ti = some d ∧ d.modec_valid = false ∧ d.track = natDec ti.Track)
    ∧ (∀ d2, pflaaCompute env geo ti = some d2 → d2.modec_valid = false →
        0 < ti.Alt ∧ ti.Position_valid = true ∧ ti.Speed_valid = true ∧ fixOK env = true) := by
  constructor
  · have hc := fullfix_compute env geo ti h1 h2 h3 h4
    rw [pflaaCont_false_eq] at hc
    exact ⟨_, hc, rfl, rfl⟩
  · intro d2 hc2 hm
    have hb := pflaaCompute_modec_false hc2 hm
    simp only [Bool.and_eq_true, decide_eq_true_eq] at hb
    exact ⟨hb.1.1.1, hb.1.1.2, hb.1.2, hb.2⟩

/-- Witness for C5 amended at a concrete full-fix state. -/
theorem claim5_fullfix_amended_witness :
    ∃ d, pflaaCompute { gpsValid := true, sit := { GPSFixQuality := 1 } }
        { dist := ⟨500, 1⟩, distN := ⟨400, 1⟩ }
        { Alt := 1000, Position_valid := true, Speed_valid := true, Track := 90 } = some d
      ∧ d.modec_valid = false
      ∧ d.track = natDec 90 :=
  (claim5_fullfix_amended { gpsValid := true, sit := { GPSFixQuality := 1 } }
    { dist := ⟨500, 1⟩, distN := ⟨400, 1⟩ }
    { Alt := 1000, Position_valid := true, Speed_valid := true, Track := 90 }
    (by decide) rfl rfl (by decide)).1

/-- C7 counterexample, in faithful IEEE-754 binary32 arithmetic: at 5 ft
the `float32` multiplication by `0.3048` (the relative-vertical and
climb-rate sites) yields `12784239 / 2^23` m while the `float32` division
by `3.28084` (the GPGGA altitude and geoid-separation sites) yields
`6392119 / 2^22` m — adjacent floats, one ulp apart — so the same feet
value does not convert to the identical meters value at every site.  (The
two `float32` constants involved are `10227391 / 2^25` and
`1720105 / 2^19`.) -/
theorem claim7_feet_counterexample :
    Frac.eqv (fl32 ⟨3048, 10000⟩) ⟨10227391, 33554432⟩
    ∧ Frac.eqv (fl32 ⟨328084, 100000⟩) ⟨1720105, 524288⟩
    ∧ Frac.eqv (ftToMetersF32 ⟨5, 1⟩) ⟨12784239, 8388608⟩
    ∧ Frac.eqv (ggaFeetToMetersF32 ⟨5, 1⟩) ⟨6392119, 4194304⟩
    ∧ ¬ Frac.eqv (ftToMetersF32 ⟨5, 1⟩) (ggaFeetToMetersF32 ⟨5, 1⟩) := by
  refine ⟨by decide, by decide, by decide, by decide, by decide⟩

/-- C7 amended: the relative-vertical and climb-rate sites multiply by the
`float32` value of 0.3048 while the GPGGA altitude and geoid-separation
sites divide by the `float32` value of 3.28084.  The two operations agree
after `float32` rounding on many inputs — 10000 ft yields exactly 3048 m
at both kinds of site — but not on all: at 5 ft the multiplication site
yields `12784239 / 2^23` m and the division site `6392119 / 2^22` m, one
ulp apart, so the conversions are not one single fixed-factor conversion
applied consistently. -/
theorem claim7_feet_amended :
    Frac.eqv (ftToMetersF32 ⟨10000, 1⟩) (ggaFeetToMetersF32 ⟨10000, 1⟩)
    ∧ Frac.eqv (ftToMetersF32 ⟨10000, 1⟩) ⟨3048, 1⟩
    ∧ Frac.eqv (ggaFeetToMetersF32 ⟨10000, 1⟩) ⟨3048, 1⟩
    ∧ Frac.eqv (ftToMetersF32 ⟨5, 1⟩) ⟨12784239, 8388608⟩
    ∧ Frac.eqv (ggaFeetToMetersF32 ⟨5, 1⟩) ⟨6392119, 4194304⟩
    ∧ ¬ Frac.eqv (ftToMetersF32 ⟨5, 1⟩) (ggaFeetToMetersF32 ⟨5, 1⟩) := by
  refine ⟨by decide, by decide, by decide, by decide, by decide, by decide⟩
